import Mathlib

/-!
Verification of the truck-tracker movement simulator and store selectors.

The definitions below are a shallow embedding of the TypeScript sources:
JavaScript numbers are modelled as real numbers, `Math.random()` as an
explicit stream `rand : ℕ → ℝ` consumed in call order, `Date.now()` as an
explicit stream `clock : ℕ → ℕ`, and `new Date().toISOString()` as an
explicit `now : String` parameter.  Fallible array indexing is made total
only on paths that are unreachable for the fixed highway registry; each
such spot is noted in a comment.
-/

namespace TruckTracker

open Real

/-- Position record (lat/lng in degrees, optional ISO timestamp), from
src/types/index.ts. -/
structure Position where
  lat : ℝ
  lng : ℝ
  timestamp : Option String := none

/-- Named location (origin/destination of a truck), from src/types/index.ts. -/
structure Location where
  name : String
  lat : ℝ
  lng : ℝ

/-- Viewing a Location as a bare coordinate, as JavaScript does structurally
when a Location is passed where a Position is expected. -/
def Location.pos (l : Location) : Position :=
  { lat := l.lat, lng := l.lng, timestamp := none }

/-- Alert categories, from src/types/index.ts. -/
inductive AlertType where
  | speed | lock | direction | stop | battery | fuel | temperature
deriving DecidableEq

/-- Alert severities, from src/types/index.ts. -/
inductive Severity where
  | info | warning | critical
deriving DecidableEq

/-- Truck lifecycle statuses, from src/types/index.ts. -/
inductive TruckStatus where
  | moving | stopped | completed | delayed | maintenance
deriving DecidableEq

/-- Alert record, from src/types/index.ts. -/
structure Alert where
  id : String
  truckId : String
  truckPlateNumber : String
  truckDriverName : String
  type : AlertType
  message : String
  severity : Severity
  timestamp : String
deriving DecidableEq

/-- Cargo record, from src/types/index.ts. -/
structure Cargo where
  type : String
  weight : String
  value : String
  dangerous : Bool
deriving DecidableEq

/-- Truck record, from src/types/index.ts (numeric fields as reals). -/
structure Truck where
  id : String
  plateNumber : String
  driverName : String
  driverPhone : String
  company : String
  truckType : String
  capacity : String
  currentPosition : Position
  destination : Location
  origin : Location
  route : String
  status : TruckStatus
  speed : ℝ
  heading : ℝ
  fuel : ℝ
  battery : ℝ
  lastUpdate : String
  alerts : List Alert
  cargo : Cargo

/-! ## Store actions (src/store/truckStore.ts) -/

/-- The removeAlert store action restricted to the trucks field it updates:
for the matching truck it keeps exactly the alerts whose list INDEX,
rendered in decimal, differs from the `alertId` argument
(`truck.alerts.filter((_, index) => index.toString() !== alertId)`). -/
def removeAlert (trucks : List Truck) (truckId alertId : String)
    (now : String) : List Truck :=
  trucks.map fun truck =>
    if truck.id = truckId then
      { truck with
        alerts := ((truck.alerts.enum.filter
          fun p => toString p.1 != alertId).map Prod.snd),
        lastUpdate := now }
    else truck

/-- The addAlert store action restricted to the trucks field it updates. -/
def addAlert (trucks : List Truck) (truckId : String) (alert : Alert)
    (now : String) : List Truck :=
  trucks.map fun truck =>
    if truck.id = truckId then
      { truck with alerts := truck.alerts ++ [alert], lastUpdate := now }
    else truck

/-! ## Filters and selectors (src/store/truckStore.ts) -/

/-- Filter-criteria record, from src/types/index.ts; `none` models an
absent (undefined) field. -/
structure TruckFilters where
  origin : Option String := none
  destination : Option String := none
  route : Option String := none
  status : Option (List TruckStatus) := none
  company : Option (List String) := none
  truckType : Option (List String) := none
  hasAlerts : Option Bool := none
  alertTypes : Option (List AlertType) := none

/-- JavaScript truthiness of an optional string: undefined and the empty
string are falsy. -/
def optStrActive (o : Option String) : Bool :=
  match o with
  | none => false
  | some s => s != ""

/-- Truthiness-with-length guard used for optional arrays in the filter:
the code tests `filters.x && filters.x.length > 0`. -/
def optListActive {α : Type} (o : Option (List α)) : Bool :=
  match o with
  | none => false
  | some l => decide (0 < l.length)

/-- Per-truck predicate of the useFilteredTrucks selector, translated
check-for-check from the early-return chain in the source. -/
def truckPassesFilters (f : TruckFilters) (t : Truck) : Bool :=
  if optStrActive f.origin && (t.origin.name != f.origin.getD "") then false
  else if optStrActive f.destination &&
      (t.destination.name != f.destination.getD "") then false
  else if optStrActive f.route && (t.route != f.route.getD "") then false
  else if optListActive f.status &&
      !(decide (t.status ∈ f.status.getD [])) then false
  else if optListActive f.company &&
      !(decide (t.company ∈ f.company.getD [])) then false
  else if optListActive f.truckType &&
      !(decide (t.truckType ∈ f.truckType.getD [])) then false
  else if f.hasAlerts.isSome &&
      (f.hasAlerts.getD false != decide (0 < t.alerts.length)) then false
  else if optListActive f.alertTypes &&
      !((f.alertTypes.getD []).any
        fun ty => decide (ty ∈ t.alerts.map Alert.type)) then false
  else true

/-- The useFilteredTrucks selector, from src/store/truckStore.ts. -/
def useFilteredTrucks (trucks : List Truck) (f : TruckFilters) : List Truck :=
  trucks.filter (truckPassesFilters f)

/-- Spec-side string predicate: absent or empty matches everything,
otherwise the field must equal the requested name. -/
def specStrOk (o : Option String) (n : String) : Bool :=
  match o with
  | none => true
  | some s => s == "" || n == s

/-- Spec-side membership predicate: absent or empty matches everything,
otherwise the field must belong to the requested set. -/
def specMemOk {α : Type} [DecidableEq α] (o : Option (List α)) (x : α) : Bool :=
  match o with
  | none => true
  | some l => l.isEmpty || decide (x ∈ l)

/-- Spec-side any predicate: absent or empty matches everything, otherwise
some requested element must satisfy the test. -/
def specAnyOk {α : Type} (o : Option (List α)) (p : α → Bool) : Bool :=
  match o with
  | none => true
  | some l => l.isEmpty || l.any p

/-- Spec-side boolean predicate: absent matches everything, otherwise the
requested flag must agree. -/
def specBoolOk (o : Option Bool) (b : Bool) : Bool :=
  match o with
  | none => true
  | some c => c == b

/-- Spec-side filter predicate, written from the specification text: a
vehicle matches when every PRESENT predicate holds (AND semantics), and an
absent or empty predicate matches everything. -/
def specFilterPred (f : TruckFilters) (t : Truck) : Bool :=
  specStrOk f.origin t.origin.name &&
  specStrOk f.destination t.destination.name &&
  specStrOk f.route t.route &&
  specMemOk f.status t.status &&
  specMemOk f.company t.company &&
  specMemOk f.truckType t.truckType &&
  specBoolOk f.hasAlerts (decide (0 < t.alerts.length)) &&
  specAnyOk f.alertTypes (fun ty => decide (ty ∈ t.alerts.map Alert.type))

/-- Stats record produced by the useTruckStats selector: the source computes
exactly these six fields. -/
structure TruckStats where
  total : ℕ
  moving : ℕ
  stopped : ℕ
  completed : ℕ
  withAlerts : ℕ
  averageSpeed : ℝ

/-- The useTruckStats selector, from src/store/truckStore.ts.  The source
computes `trucks.reduce((sum, t) => sum + t.speed, 0) / trucks.length || 0`;
for an empty collection the division is 0/0 = NaN, which `|| 0` turns into
0, modelled by the explicit emptiness test. -/
noncomputable def useTruckStats (trucks : List Truck) : TruckStats :=
  { total := trucks.length
    moving := (trucks.filter fun t => t.status == TruckStatus.moving).length
    stopped := (trucks.filter fun t => t.status == TruckStatus.stopped).length
    completed :=
      (trucks.filter fun t => t.status == TruckStatus.completed).length
    withAlerts := (trucks.filter fun t => decide (0 < t.alerts.length)).length
    averageSpeed :=
      if trucks.length = 0 then 0
      else (trucks.foldl (fun sum t => sum + t.speed) 0) / trucks.length }

/-- Spec-side stats, written from the specification text: total count,
counts per status value the output carries, count of vehicles with at least
one alert, and the mean speed with the empty-set mean defined as 0. -/
noncomputable def specStats (trucks : List Truck) : TruckStats :=
  { total := trucks.length
    moving := trucks.countP fun t => decide (t.status = TruckStatus.moving)
    stopped := trucks.countP fun t => decide (t.status = TruckStatus.stopped)
    completed :=
      trucks.countP fun t => decide (t.status = TruckStatus.completed)
    withAlerts := trucks.countP fun t => decide (t.alerts ≠ [])
    averageSpeed :=
      if trucks.isEmpty then 0
      else (trucks.map Truck.speed).sum / trucks.length }

/-! ## Concrete fixtures used in scenario proofs -/

/-- A sample cargo record. -/
def sampleCargo : Cargo :=
  { type := "General", weight := "10t", value := "1000", dangerous := false }

/-- A baseline concrete truck used by the scenario statements. -/
def baseTruck : Truck :=
  { id := "T1", plateNumber := "RUH-001", driverName := "Ali",
    driverPhone := "050", company := "STC", truckType := "Flatbed",
    capacity := "20t",
    currentPosition := { lat := 24.7136, lng := 46.6753 },
    destination := { name := "Jeddah", lat := 21.4858, lng := 39.1925 },
    origin := { name := "Riyadh", lat := 24.7136, lng := 46.6753 },
    route := "Riyadh - Jeddah", status := TruckStatus.moving, speed := 60,
    heading := 0, fuel := 50, battery := 100, lastUpdate := "t0",
    alerts := [], cargo := sampleCargo }

/-- An alert whose id has the shape the simulator generates. -/
def bugAlert : Alert :=
  { id := "alert-500", truckId := "T1", truckPlateNumber := "RUH-001",
    truckDriverName := "Ali", type := AlertType.speed, message := "msg",
    severity := Severity.info, timestamp := "t0" }

/-- The baseline truck carrying exactly the alert `bugAlert`. -/
def bugTruck : Truck := { baseTruck with alerts := [bugAlert] }

/-- Scenario-C trucks: statuses moving, stopped, moving. -/
def scenTruckA : Truck :=
  { baseTruck with id := "A", status := TruckStatus.moving }

/-- Scenario-C truck with status stopped. -/
def scenTruckB : Truck :=
  { baseTruck with id := "B", status := TruckStatus.stopped }

/-- Scenario-C truck with status moving. -/
def scenTruckC : Truck :=
  { baseTruck with id := "C", status := TruckStatus.moving }

/-- Truck with status delayed. -/
def delayedTruck : Truck := { baseTruck with status := TruckStatus.delayed }

/-- Truck with status maintenance. -/
def maintTruck : Truck := { baseTruck with status := TruckStatus.maintenance }

/-! ## C1: removeAlert -/

/-- C1: the removeAlert action does NOT remove alerts whose id field equals
the `alertId` argument.  At the failing input — one truck holding one alert
with id "alert-500", removing "alert-500" from it — the store leaves the
alert list unchanged (the code compares the stringified list index, never
the id field), while removal by id would empty the list. -/
theorem removeAlert_filters_by_index_not_id :
    (removeAlert [bugTruck] "T1" "alert-500" "t1").map Truck.alerts =
      [[bugAlert]] ∧
    bugTruck.alerts.filter (fun a => a.id != "alert-500") = [] := by
  exact ⟨rfl, rfl⟩

/-! ## C4: the filtered-trucks selector -/

/-- Rewrites one early-return step of the filter chain into a conjunction. -/
theorem ite_false_eq_not_and (a rest : Bool) :
    (if a = true then false else rest) = (!a && rest) := by
  cases a <;> simp

/-- String-valued filter component, rewritten from guard form to the
spec-side match form. -/
theorem str_component_eq (o : Option String) (n : String) :
    (!(optStrActive o && (n != o.getD ""))) = specStrOk o n := by
  cases o with
  | none => simp [optStrActive, specStrOk]
  | some s =>
      by_cases hs : s = "" <;> by_cases hn : n = s <;>
        simp [optStrActive, specStrOk, hs, hn, bne]

/-- List-membership filter component, rewritten from guard form to the
spec-side match form. -/
theorem list_component_eq {α : Type} [DecidableEq α]
    (o : Option (List α)) (x : α) :
    (!(optListActive o && !(decide (x ∈ o.getD [])))) = specMemOk o x := by
  cases o with
  | none => simp [optListActive, specMemOk]
  | some l =>
      cases l with
      | nil => simp [optListActive, specMemOk]
      | cons h t =>
          by_cases hx : x ∈ h :: t <;> simp [optListActive, specMemOk, hx]

/-- Any-membership filter component (alert types), rewritten from guard
form to the spec-side match form. -/
theorem any_component_eq {α : Type} (o : Option (List α)) (p : α → Bool) :
    (!(optListActive o && !((o.getD []).any p))) = specAnyOk o p := by
  cases o with
  | none => simp [optListActive, specAnyOk]
  | some l =>
      cases l with
      | nil => simp [optListActive, specAnyOk]
      | cons h t =>
          cases hx : (h :: t).any p <;> simp [optListActive, specAnyOk, hx]

/-- Boolean filter component (hasAlerts), rewritten from guard form to the
spec-side match form. -/
theorem bool_component_eq (o : Option Bool) (b : Bool) :
    (!(o.isSome && (o.getD false != b))) = specBoolOk o b := by
  cases o with
  | none => rfl
  | some c => cases c <;> cases b <;> rfl

/-- The per-truck predicate of the selector agrees with the spec-side
conjunctive predicate. -/
theorem truckPassesFilters_eq_spec (f : TruckFilters) (t : Truck) :
    truckPassesFilters f t = specFilterPred f t := by
  unfold truckPassesFilters specFilterPred
  rw [ite_false_eq_not_and, ite_false_eq_not_and, ite_false_eq_not_and,
    ite_false_eq_not_and, ite_false_eq_not_and, ite_false_eq_not_and,
    ite_false_eq_not_and, ite_false_eq_not_and]
  rw [str_component_eq, str_component_eq, str_component_eq,
    list_component_eq, list_component_eq, list_component_eq,
    bool_component_eq, any_component_eq]
  simp only [Bool.and_assoc, Bool.and_true]

/-- C4: the filtered-trucks selector returns exactly the vehicles matching
every present predicate of the criteria (conjunction; absent or empty
predicates match everything), as a filter of the input — hence in the input
order and without modifying the input; an empty collection filters to the
empty list; and Scenario C: statuses (moving, stopped, moving) filtered by
the status set containing only moving give exactly the two moving trucks in
order. -/
theorem useFilteredTrucks_spec :
    (∀ trucks f, useFilteredTrucks trucks f = trucks.filter (specFilterPred f)) ∧
    (∀ trucks f, (useFilteredTrucks trucks f).Sublist trucks) ∧
    (∀ f, useFilteredTrucks [] f = []) ∧
    useFilteredTrucks [scenTruckA, scenTruckB, scenTruckC]
        { status := some [TruckStatus.moving] } = [scenTruckA, scenTruckC] := by
  refine ⟨?_, ?_, ?_, ?_⟩
  · intro trucks f
    unfold useFilteredTrucks
    congr 1
    funext t
    exact truckPassesFilters_eq_spec f t
  · intro trucks f
    exact List.filter_sublist trucks
  · intro f
    rfl
  · rfl

/-! ## C5: the aggregate-stats selector -/

/-- Counting a status with countP equals the length of the corresponding
filter of the selector. -/
theorem filter_beq_status_len (p : TruckStatus) (trucks : List Truck) :
    (trucks.filter fun t => t.status == p).length =
      trucks.countP fun t => decide (t.status = p) := by
  rw [List.countP_eq_length_filter]
  congr 1

/-- Summing speeds with foldl equals the sum of the mapped speeds. -/
theorem foldl_speed_sum (l : List Truck) (init : ℝ) :
    l.foldl (fun sum t => sum + t.speed) init =
      init + (l.map Truck.speed).sum := by
  induction l generalizing init with
  | nil => simp
  | cons h t ih => simp [ih, add_assoc]

/-- C5 counterexample: two single-truck collections whose delayed counts
differ (1 versus 0) produce identical stats records, so the selector's
output carries no count for the delayed (nor maintenance) status. -/
theorem useTruckStats_not_five_statuses :
    useTruckStats [delayedTruck] = useTruckStats [maintTruck] ∧
    ([delayedTruck].countP fun t => decide (t.status = TruckStatus.delayed)) ≠
      ([maintTruck].countP fun t => decide (t.status = TruckStatus.delayed)) := by
  exact ⟨rfl, by decide⟩

/-- C5 (amended): the stats selector returns the total count, counts for
the statuses moving, stopped and completed, the count of vehicles with at
least one alert, and the mean speed over all vehicles with the empty-set
mean equal to 0. -/
theorem useTruckStats_characterization :
    ∀ trucks, useTruckStats trucks = specStats trucks := by
  intro trucks
  have hwa : (fun t : Truck => decide (0 < t.alerts.length)) =
      (fun t : Truck => decide (t.alerts ≠ [])) := by
    funext t
    simp [List.length_pos]
  unfold useTruckStats specStats
  congr 1
  · exact filter_beq_status_len TruckStatus.moving trucks
  · exact filter_beq_status_len TruckStatus.stopped trucks
  · exact filter_beq_status_len TruckStatus.completed trucks
  · rw [List.countP_eq_length_filter, ← hwa]
  · cases trucks with
    | nil => simp
    | cons h t =>
        rw [if_neg (by simp), if_neg (by simp)]
        rw [foldl_speed_sum]
        simp

/-! ## Geo math (src/utils/realisticSimulation.ts) -/

/-- JavaScript Math.atan2 semantics on reals (signed zeros are not
representable; every use in the source has a nonnegative second argument). -/
noncomputable def atan2 (y x : ℝ) : ℝ :=
  if 0 < x then Real.arctan (y / x)
  else if x < 0 then
    (if 0 ≤ y then Real.arctan (y / x) + π else Real.arctan (y / x) - π)
  else if 0 < y then π / 2
  else if y < 0 then -(π / 2)
  else 0

/-- The haversine intermediate value a of calculateDistance. -/
noncomputable def aVal (pos1 pos2 : Position) : ℝ :=
  Real.sin ((pos2.lat - pos1.lat) * π / 180 / 2) *
      Real.sin ((pos2.lat - pos1.lat) * π / 180 / 2) +
    Real.cos (pos1.lat * π / 180) * Real.cos (pos2.lat * π / 180) *
      Real.sin ((pos2.lng - pos1.lng) * π / 180 / 2) *
      Real.sin ((pos2.lng - pos1.lng) * π / 180 / 2)

/-- Haversine great-circle distance in km (calculateDistance in the
source), Earth radius 6371 km. -/
noncomputable def calculateDistance (pos1 pos2 : Position) : ℝ :=
  let R : ℝ := 6371
  let a := aVal pos1 pos2
  let c := 2 * atan2 (Real.sqrt a) (Real.sqrt (1 - a))
  R * c

/-- Truncation toward zero, as JavaScript obtains for the implicit integer
part of the remainder operator. -/
noncomputable def jsTrunc (r : ℝ) : ℤ :=
  if 0 ≤ r then ⌊r⌋ else ⌈r⌉

/-- The JavaScript % operator on reals (remainder with the dividend's
sign). -/
noncomputable def jsMod (x m : ℝ) : ℝ :=
  x - m * (jsTrunc (x / m) : ℝ)

/-- Initial compass bearing (calculateBearing in the source); the raw
atan2 bearing in degrees is normalized by `(bearing + 360) % 360`. -/
noncomputable def calculateBearing (pos1 pos2 : Position) : ℝ :=
  let dLng := (pos2.lng - pos1.lng) * π / 180
  let lat1 := pos1.lat * π / 180
  let lat2 := pos2.lat * π / 180
  let y := Real.sin dLng * Real.cos lat2
  let x := Real.cos lat1 * Real.sin lat2 -
    Real.sin lat1 * Real.cos lat2 * Real.cos dLng
  let bearing := atan2 y x * 180 / π
  jsMod (bearing + 360) 360

/-! ## Highway registry (SAUDI_HIGHWAYS in the source) -/

/-- Waypoint literal of the highway registry. -/
structure NamedWaypoint where
  lat : ℝ
  lng : ℝ
  name : String

/-- Viewing a registry waypoint as a coordinate. -/
def NamedWaypoint.pos (w : NamedWaypoint) : Position :=
  { lat := w.lat, lng := w.lng, timestamp := none }

/-- One registered highway: waypoints with per-segment speed limits and
terrain factors. -/
structure HighwayRoute where
  waypoints : List NamedWaypoint
  speedLimits : List ℝ
  terrainFactors : List ℝ

/-- Registry entry Highway_40 (Riyadh to Jeddah). -/
def highway40 : HighwayRoute :=
  { waypoints :=
      [⟨24.7136, 46.6753, "Riyadh"⟩, ⟨24.5247, 46.1792, "Al-Kharj"⟩,
       ⟨24.1333, 45.8000, "Al-Aflaj"⟩, ⟨23.8859, 45.0218, "Al-Sulayyil"⟩,
       ⟨23.4924, 44.4267, "Wadi al-Dawasir"⟩, ⟨22.7500, 43.1667, "Bishah"⟩,
       ⟨21.9611, 41.6833, "Taif"⟩, ⟨21.4858, 39.1925, "Jeddah"⟩],
    speedLimits := [120, 110, 100, 90, 80, 70, 90, 80],
    terrainFactors := [1.0, 0.95, 0.9, 0.85, 0.8, 0.7, 0.85, 0.9] }

/-- Registry entry Highway_50 (Dammam to Yanbu). -/
def highway50 : HighwayRoute :=
  { waypoints :=
      [⟨26.4207, 50.0888, "Dammam"⟩, ⟨25.4295, 49.5906, "Al-Hofuf"⟩,
       ⟨24.7136, 46.6753, "Riyadh"⟩, ⟨24.4539, 44.9658, "Al-Qassim"⟩,
       ⟨25.3336, 43.0504, "Hail"⟩, ⟨24.0889, 38.0617, "Yanbu"⟩],
    speedLimits := [120, 110, 120, 100, 90, 80],
    terrainFactors := [1.0, 0.95, 1.0, 0.9, 0.85, 0.8] }

/-- Registry entry Highway_5 (Jeddah to Al-Khobar). -/
def highway5 : HighwayRoute :=
  { waypoints :=
      [⟨21.4858, 39.1925, "Jeddah"⟩, ⟨21.4225, 39.8262, "Mecca"⟩,
       ⟨21.9611, 41.6833, "Taif"⟩, ⟨24.7136, 46.6753, "Riyadh"⟩,
       ⟨25.4295, 49.5906, "Al-Hofuf"⟩, ⟨26.2172, 50.1971, "Al-Khobar"⟩],
    speedLimits := [80, 70, 90, 120, 110, 100],
    terrainFactors := [0.9, 0.7, 0.8, 1.0, 0.95, 1.0] }

/-- Registry entry Highway_15 (north-south routes). -/
def highway15 : HighwayRoute :=
  { waypoints :=
      [⟨28.3998, 36.5700, "Tabuk"⟩, ⟨26.3336, 43.0504, "Hail"⟩,
       ⟨24.7136, 46.6753, "Riyadh"⟩, ⟨22.7500, 43.1667, "Bishah"⟩,
       ⟨18.2164, 42.5053, "Abha"⟩, ⟨16.9010, 42.5663, "Jazan"⟩],
    speedLimits := [100, 110, 120, 90, 70, 80],
    terrainFactors := [0.9, 0.95, 1.0, 0.85, 0.6, 0.8] }

/-- The SAUDI_HIGHWAYS object as a key lookup. -/
def SAUDI_HIGHWAYS (key : String) : Option HighwayRoute :=
  if key = "Highway_40" then some highway40
  else if key = "Highway_50" then some highway50
  else if key = "Highway_5" then some highway5
  else if key = "Highway_15" then some highway15
  else none

/-! ## findNearestWaypoint -/

/-- Result record of findNearestWaypoint. -/
structure NearestResult where
  waypoint : NamedWaypoint
  index : ℕ
  distance : ℝ

/-- The forEach scan of findNearestWaypoint: keep the first-encountered
strict minimizer. -/
noncomputable def nearestLoop (position : Position) :
    List NamedWaypoint → ℕ → NearestResult → NearestResult
  | [], _, acc => acc
  | w :: rest, i, acc =>
      nearestLoop position rest (i + 1)
        (if calculateDistance position w.pos < acc.distance then
          { waypoint := w, index := i,
            distance := calculateDistance position w.pos }
        else acc)

/-- findNearestWaypoint from the source.  For an unregistered key the
source returns null, modelled as none; for a registered route the waypoint
list is never empty, so the (in JavaScript faulting) empty case is likewise
totalized to none. -/
noncomputable def findNearestWaypoint (position : Position)
    (highway : String) : Option NearestResult :=
  match SAUDI_HIGHWAYS highway with
  | none => none
  | some route =>
      match route.waypoints with
      | [] => none
      | w0 :: _ =>
          some (nearestLoop position route.waypoints 0
            { waypoint := w0, index := 0,
              distance := calculateDistance position w0.pos })

/-! ## simulateRealisticMovement -/

/-- Partial truck update returned by one simulator tick
(`Partial<Truck>` restricted to the fields the simulator writes). -/
structure TruckUpdate where
  currentPosition : Option Position := none
  heading : Option ℝ := none
  speed : Option ℝ := none
  status : Option TruckStatus := none

/-- JavaScript substring containment (String.prototype.includes). -/
def includesStr (s sub : String) : Bool :=
  decide (sub.toList <:+: s.toList)

/-- Route-label resolution step of simulateRealisticMovement: substring
match against the registry keys, defaulting to Highway_40. -/
def highwaySelect (route : String) : String :=
  if includesStr route "Highway 50" then "Highway_50"
  else if includesStr route "Highway 5" then "Highway_5"
  else if includesStr route "Highway 15" then "Highway_15"
  else "Highway_40"

/-- JavaScript `value || dflt` for a possibly-missing number (undefined,
0 and NaN are falsy; NaN does not arise for the fixed registry). -/
noncomputable def jsOrNum (o : Option ℝ) (dflt : ℝ) : ℝ :=
  match o with
  | none => dflt
  | some v => if v = 0 then dflt else v

/-- The fallback branch of simulateRealisticMovement (lines 117-141):
simple linear movement toward the destination; within 1 km the truck is
marked completed.  `rand 0` is the move-distance draw and `rand 1` the
speed-jitter draw, in source call order. -/
noncomputable def fallbackMovement (truck : Truck) (rand : ℕ → ℝ)
    (now : String) : TruckUpdate :=
  let currentPos := truck.currentPosition
  let destination := truck.destination
  let bearing := calculateBearing currentPos destination.pos
  let distance := calculateDistance currentPos destination.pos
  if distance < 1 then
    { status := some TruckStatus.completed, speed := some 0,
      currentPosition := some destination.pos }
  else
    let moveDistance := rand 0 * 2 + 1
    let moveFrac := moveDistance / distance
    let newLat := currentPos.lat + (destination.lat - currentPos.lat) * moveFrac
    let newLng := currentPos.lng + (destination.lng - currentPos.lng) * moveFrac
    { currentPosition :=
        some { lat := newLat, lng := newLng, timestamp := some now },
      heading := some bearing,
      speed := some (min (truck.speed + (rand 1 - 0.5) * 10) 120) }

/-- The highway-following branch of simulateRealisticMovement (lines
144-191).  `rand 0` is the traffic-factor draw. -/
noncomputable def highwayMovement (truck : Truck) (rand : ℕ → ℝ)
    (now : String) (route : HighwayRoute) (nearest : NearestResult) :
    TruckUpdate :=
  let currentPos := truck.currentPosition
  let waypointIndex := nearest.index
  let nextWaypointIndex := min (waypointIndex + 1) (route.waypoints.length - 1)
  -- source: route.waypoints[nextWaypointIndex]; always in bounds for a
  -- registered (nonempty) route
  let nextWaypoint := route.waypoints.getD nextWaypointIndex ⟨0, 0, ""⟩
  let bearing := calculateBearing currentPos nextWaypoint.pos
  let speedLimit := jsOrNum (route.speedLimits.get? waypointIndex) 100
  let terrainFactor := jsOrNum (route.terrainFactors.get? waypointIndex) 1.0
  let targetSpeed := speedLimit * terrainFactor * (0.8 + rand 0 * 0.4)
  let currentSpeed := truck.speed
  let speedDiff := targetSpeed - currentSpeed
  let newSpeed := max 30 (min 120 (currentSpeed + speedDiff * 0.1))
  let distanceToWaypoint := calculateDistance currentPos nextWaypoint.pos
  let moveDistance := newSpeed / 60 * 2
  if distanceToWaypoint < moveDistance then
    { currentPosition :=
        some { lat := nextWaypoint.lat, lng := nextWaypoint.lng,
               timestamp := some now },
      heading := some bearing, speed := some newSpeed }
  else
    let moveFrac := moveDistance / distanceToWaypoint
    let newLat := currentPos.lat + (nextWaypoint.lat - currentPos.lat) * moveFrac
    let newLng := currentPos.lng + (nextWaypoint.lng - currentPos.lng) * moveFrac
    { currentPosition :=
        some { lat := newLat, lng := newLng, timestamp := some now },
      heading := some bearing, speed := some newSpeed }

/-- One simulator tick (simulateRealisticMovement): resolve the highway,
look it up, find the nearest waypoint, and either follow the highway or
fall back to direct movement when either lookup fails. -/
noncomputable def simulateRealisticMovement (truck : Truck) (rand : ℕ → ℝ)
    (now : String) : TruckUpdate :=
  let highway := highwaySelect truck.route
  match SAUDI_HIGHWAYS highway,
      findNearestWaypoint truck.currentPosition highway with
  | some route, some nearest => highwayMovement truck rand now route nearest
  | some _, none => fallbackMovement truck rand now
  | none, _ => fallbackMovement truck rand now

/-! ## generateRandomEvent -/

/-- JavaScript Math.round (half away from zero upward). -/
noncomputable def jsRound (x : ℝ) : ℤ := ⌊x + 0.5⌋

/-- generateRandomEvent from the source: one shared draw `rand 0`; a speed
alert below 0.05 and a fuel alert below 0.02.  `clock` numbers the
Date.now() calls in execution order (the speed push always runs first when
both fire); `fmt` renders the raw fuel number in the message text. -/
noncomputable def generateRandomEvent (truck : Truck) (rand : ℕ → ℝ)
    (clock : ℕ → ℕ) (nowIso : String) (fmt : ℝ → String) : List Alert :=
  let random := rand 0
  let speedEvents : List Alert :=
    if random < 0.05 then
      [{ id := "alert-" ++ toString (clock 0), truckId := truck.id,
         truckPlateNumber := truck.plateNumber,
         truckDriverName := truck.driverName, type := AlertType.speed,
         message := "Speed: " ++ toString (jsRound truck.speed) ++
           " km/h on " ++ (truck.route.splitOn " - ").headD "",
         severity :=
           if truck.speed > 100 then Severity.warning else Severity.info,
         timestamp := nowIso }]
    else []
  let fuelEvents : List Alert :=
    if random < 0.02 then
      [{ id := "alert-" ++ toString (clock 1), truckId := truck.id,
         truckPlateNumber := truck.plateNumber,
         truckDriverName := truck.driverName, type := AlertType.fuel,
         message := "Fuel level: " ++ fmt truck.fuel ++
           "% - Consider refueling",
         severity :=
           if truck.fuel < 30 then Severity.warning else Severity.info,
         timestamp := nowIso }]
    else []
  speedEvents ++ fuelEvents

/-! ## C8: distance symmetry and self-distance -/

/-- The haversine intermediate value is symmetric in its arguments. -/
theorem aVal_symm (a b : Position) : aVal a b = aVal b a := by
  unfold aVal
  rw [show (a.lat - b.lat) * π / 180 / 2 =
      -((b.lat - a.lat) * π / 180 / 2) by ring,
    show (a.lng - b.lng) * π / 180 / 2 =
      -((b.lng - a.lng) * π / 180 / 2) by ring,
    Real.sin_neg, Real.sin_neg]
  ring

/-- The haversine intermediate value vanishes on equal coordinates. -/
theorem aVal_self_coords {p q : Position} (hlat : p.lat = q.lat)
    (hlng : p.lng = q.lng) : aVal p q = 0 := by
  unfold aVal
  simp [hlat, hlng]

/-- The distance between equal coordinates is zero. -/
theorem calculateDistance_self_coords {p q : Position} (hlat : p.lat = q.lat)
    (hlng : p.lng = q.lng) : calculateDistance p q = 0 := by
  simp only [calculateDistance]
  rw [aVal_self_coords hlat hlng]
  rw [show (1 : ℝ) - 0 = 1 by norm_num, Real.sqrt_zero, Real.sqrt_one]
  unfold atan2
  rw [if_pos one_pos]
  norm_num [Real.arctan_zero]

/-- C8: the great-circle distance is symmetric, and the distance from any
coordinate to itself is 0. -/
theorem calculateDistance_symm_and_self :
    (∀ a b : Position, calculateDistance a b = calculateDistance b a) ∧
    (∀ a : Position, calculateDistance a a = 0) := by
  constructor
  · intro a b
    simp only [calculateDistance]
    rw [aVal_symm]
  · intro a
    exact calculateDistance_self_coords rfl rfl

/-! ## C9: bearing range -/

/-- The embedded atan2 always lies in (-π, π]. -/
theorem atan2_bounds (y x : ℝ) : -π < atan2 y x ∧ atan2 y x ≤ π := by
  have hpi := Real.pi_pos
  have h1 := Real.arctan_lt_pi_div_two (y / x)
  have h2 := Real.neg_pi_div_two_lt_arctan (y / x)
  unfold atan2
  split_ifs with hx hx2 hy hy2 hy3
  · exact ⟨by linarith, by linarith⟩
  · have hyx : y / x ≤ 0 := div_nonpos_of_nonneg_of_nonpos hy hx2.le
    have h3 : Real.arctan (y / x) ≤ 0 := by
      have := Real.arctan_strictMono.monotone hyx
      rwa [Real.arctan_zero] at this
    exact ⟨by linarith, by linarith⟩
  · have hyneg : y < 0 := lt_of_not_le hy
    have hyx : 0 < y / x := div_pos_of_neg_of_neg hyneg hx2
    have h3 : 0 < Real.arctan (y / x) := by
      have := Real.arctan_strictMono hyx
      rwa [Real.arctan_zero] at this
    exact ⟨by linarith, by linarith⟩
  · exact ⟨by linarith, by linarith⟩
  · exact ⟨by linarith, by linarith⟩
  · exact ⟨by linarith, by linarith⟩

/-- Degrees normalization: for a raw bearing in (-180, 180], the source's
`(bearing + 360) % 360` lands in [0, 360). -/
theorem jsMod_range (θ : ℝ) (h1 : -π < θ) (h2 : θ ≤ π) :
    0 ≤ jsMod (θ * 180 / π + 360) 360 ∧
      jsMod (θ * 180 / π + 360) 360 < 360 := by
  have hpi := Real.pi_pos
  set b := θ * 180 / π with hb
  have hb1 : -180 < b := by
    rw [hb, lt_div_iff₀ hpi]
    nlinarith
  have hb2 : b ≤ 180 := by
    rw [hb, div_le_iff₀ hpi]
    nlinarith
  unfold jsMod jsTrunc
  have hxpos : 0 ≤ (b + 360) / 360 := by
    apply div_nonneg (by linarith) (by norm_num)
  rw [if_pos hxpos]
  by_cases hc : b + 360 < 360
  · have hfloor : ⌊(b + 360) / 360⌋ = 0 := by
      rw [Int.floor_eq_zero_iff]
      constructor
      · exact hxpos
      · rw [div_lt_one (by norm_num : (0:ℝ) < 360)]
        linarith
    rw [hfloor]
    push_cast
    constructor <;> linarith
  · have hfloor : ⌊(b + 360) / 360⌋ = 1 := by
      rw [Int.floor_eq_iff]
      push_cast
      constructor
      · rw [le_div_iff₀ (by norm_num : (0:ℝ) < 360)]
        linarith
      · rw [div_lt_iff₀ (by norm_num : (0:ℝ) < 360)]
        linarith
    rw [hfloor]
    push_cast
    constructor <;> linarith

/-- C9: for distinct coordinates, the bearing lies in [0, 360). -/
theorem calculateBearing_range :
    ∀ p1 p2 : Position, p1 ≠ p2 →
      0 ≤ calculateBearing p1 p2 ∧ calculateBearing p1 p2 < 360 := by
  intro p1 p2 _
  simp only [calculateBearing]
  exact jsMod_range _ (atan2_bounds _ _).1 (atan2_bounds _ _).2

/-- Origin coordinate for the bearing witness. -/
def originPoint : Position := { lat := 0, lng := 0 }

/-- A second, distinct coordinate for the bearing witness. -/
def unitPoint : Position := { lat := 1, lng := 1 }

/-- C9 witness at a concrete pair of distinct coordinates. -/
theorem calculateBearing_range_witness :
    0 ≤ calculateBearing originPoint unitPoint ∧
      calculateBearing originPoint unitPoint < 360 :=
  calculateBearing_range originPoint unitPoint (by
    intro h
    have hlat : originPoint.lat = unitPoint.lat := by rw [h]
    norm_num [originPoint, unitPoint] at hlat)

/-! ## C6: the fallback branch completes within 1 km -/

/-- C6: for a vehicle whose path is not resolvable (the fallback branch of
the simulator) at less than 1 km from its destination, the tick returns
status completed, speed 0 and the destination as position. -/
theorem fallback_completes_within_one_km :
    ∀ (truck : Truck) (rand : ℕ → ℝ) (now : String),
      calculateDistance truck.currentPosition truck.destination.pos < 1 →
      fallbackMovement truck rand now =
        { currentPosition := some truck.destination.pos, heading := none,
          speed := some 0, status := some TruckStatus.completed } := by
  intro t r n h
  simp only [fallbackMovement]
  rw [if_pos h]

/-- A truck standing exactly on its destination coordinates. -/
def arrivedTruck : Truck :=
  { baseTruck with currentPosition := { lat := 21.4858, lng := 39.1925 } }

/-- C6 witness: the arrived truck is within 1 km (distance 0), and one
fallback tick completes it. -/
theorem fallback_completes_within_one_km_witness :
    fallbackMovement arrivedTruck (fun _ => 0) "t1" =
      { currentPosition := some arrivedTruck.destination.pos, heading := none,
        speed := some 0, status := some TruckStatus.completed } :=
  fallback_completes_within_one_km arrivedTruck (fun _ => 0) "t1" (by
    rw [@calculateDistance_self_coords arrivedTruck.currentPosition
      arrivedTruck.destination.pos rfl rfl]
    norm_num)

/-! ## C3 and C7: branch structure of one tick -/

/-- The speed clamp lands in [30, 120]. -/
theorem clamp_bounds (z : ℝ) :
    30 ≤ max 30 (min 120 z) ∧ max 30 (min 120 z) ≤ 120 :=
  ⟨le_max_left _ _, max_le (by norm_num) (min_le_left _ _)⟩

/-- Route-label resolution always lands on a registered key. -/
theorem lookup_select (r : String) :
    ∃ route, SAUDI_HIGHWAYS (highwaySelect r) = some route := by
  unfold highwaySelect
  split_ifs <;> exact ⟨_, rfl⟩

/-- findNearestWaypoint succeeds for every selected highway key. -/
theorem nearest_select (pos : Position) (r : String) :
    ∃ nr, findNearestWaypoint pos (highwaySelect r) = some nr := by
  unfold highwaySelect
  split_ifs <;> exact ⟨_, rfl⟩

/-- The speed field of the highway branch is the clamped smoothed speed,
in [30, 120]. -/
theorem highwayMovement_speed_bounds (truck : Truck) (rand : ℕ → ℝ)
    (now : String) (route : HighwayRoute) (nearest : NearestResult) :
    ∃ s, (highwayMovement truck rand now route nearest).speed = some s ∧
      30 ≤ s ∧ s ≤ 120 := by
  simp only [highwayMovement]
  split
  · exact ⟨_, rfl, (clamp_bounds _).1, (clamp_bounds _).2⟩
  · exact ⟨_, rfl, (clamp_bounds _).1, (clamp_bounds _).2⟩

/-- C3: the speed returned by the highway-following branch of one tick is
in [30, 120]; since the branch is always taken, the same holds for every
tick result. -/
theorem highway_speed_clamped :
    (∀ (truck : Truck) (rand : ℕ → ℝ) (now : String) (route : HighwayRoute)
        (nearest : NearestResult),
      ∃ s, (highwayMovement truck rand now route nearest).speed = some s ∧
        30 ≤ s ∧ s ≤ 120) ∧
    (∀ (truck : Truck) (rand : ℕ → ℝ) (now : String),
      ∃ s, (simulateRealisticMovement truck rand now).speed = some s ∧
        30 ≤ s ∧ s ≤ 120) := by
  refine ⟨highwayMovement_speed_bounds, ?_⟩
  intro t r n
  obtain ⟨route, hr⟩ := lookup_select t.route
  obtain ⟨nr, hn⟩ := nearest_select t.currentPosition t.route
  simp only [simulateRealisticMovement, hr, hn]
  exact highwayMovement_speed_bounds t r n route nr

/-- The highway branch always returns position, heading and speed and
never a status. -/
theorem highwayMovement_fields (truck : Truck) (rand : ℕ → ℝ) (now : String)
    (route : HighwayRoute) (nearest : NearestResult) :
    (highwayMovement truck rand now route nearest).status = none ∧
    (highwayMovement truck rand now route nearest).currentPosition.isSome =
      true ∧
    (highwayMovement truck rand now route nearest).heading.isSome = true ∧
    (highwayMovement truck rand now route nearest).speed.isSome = true := by
  refine ⟨?_, ?_, ?_, ?_⟩ <;> (simp only [highwayMovement]; split <;> rfl)

/-- C7: route resolution yields one of the four registered keys;
findNearestWaypoint never returns none for a registered key; hence the
fallback branch is unreachable and every tick result carries a position,
heading and speed and no status — the simulator alone never completes a
vehicle. -/
theorem fallback_unreachable :
    (∀ r, highwaySelect r = "Highway_40" ∨ highwaySelect r = "Highway_50" ∨
      highwaySelect r = "Highway_5" ∨ highwaySelect r = "Highway_15") ∧
    (∀ (pos : Position) (key : String),
      (SAUDI_HIGHWAYS key).isSome = true →
      (findNearestWaypoint pos key).isSome = true) ∧
    (∀ (truck : Truck) (rand : ℕ → ℝ) (now : String),
      (simulateRealisticMovement truck rand now).status = none ∧
      (simulateRealisticMovement truck rand now).currentPosition.isSome =
        true ∧
      (simulateRealisticMovement truck rand now).heading.isSome = true ∧
      (simulateRealisticMovement truck rand now).speed.isSome = true) := by
  refine ⟨?_, ?_, ?_⟩
  · intro r
    unfold highwaySelect
    split_ifs <;> simp
  · intro pos key h
    unfold SAUDI_HIGHWAYS at h
    split_ifs at h with h1 h2 h3 h4
    · subst h1; rfl
    · subst h2; rfl
    · subst h3; rfl
    · subst h4; rfl
    · simp at h
  · intro t r n
    obtain ⟨route, hr⟩ := lookup_select t.route
    obtain ⟨nr, hn⟩ := nearest_select t.currentPosition t.route
    simp only [simulateRealisticMovement, hr, hn]
    exact highwayMovement_fields t r n route nr

/-- C7 witness: concrete instances discharging the hypotheses of the
registered-key part. -/
theorem fallback_unreachable_witness :
    (findNearestWaypoint originPoint "Highway_40").isSome = true ∧
    (simulateRealisticMovement baseTruck (fun _ => 0) "t").status = none :=
  ⟨fallback_unreachable.2.1 originPoint "Highway_40" rfl,
    (fallback_unreachable.2.2 baseTruck (fun _ => 0) "t").1⟩

/-! ## C10: generateRandomEvent -/

/-- Trivial renderer for the fuel message text in concrete instances. -/
def fmt0 : ℝ → String := fun _ => ""

/-- C10 counterexample: with the shared draw below 0.02 both alerts fire,
but the two ids come from two separate Date.now() calls; with a clock
advancing between them the ids differ ("alert-0" versus "alert-1"). -/
theorem generateRandomEvent_ids_differ :
    ((generateRandomEvent baseTruck (fun _ => 0.01) (fun n => n) "t"
        fmt0).map Alert.type = [AlertType.speed, AlertType.fuel]) ∧
    ((generateRandomEvent baseTruck (fun _ => 0.01) (fun n => n) "t"
        fmt0).map Alert.id = ["alert-0", "alert-1"]) ∧
    ("alert-0" : String) ≠ "alert-1" := by
  have h05 : ((fun _ : ℕ => (0.01 : ℝ)) 0) < 0.05 := by norm_num
  have h02 : ((fun _ : ℕ => (0.01 : ℝ)) 0) < 0.02 := by norm_num
  refine ⟨?_, ?_, by decide⟩ <;>
    simp only [generateRandomEvent, if_pos h05, if_pos h02] <;> rfl

/-- C10 (amended): the two alert kinds share one random draw, so a call
returning a fuel alert also returns a speed alert; both ids are built from
separate Date.now() calls and coincide exactly when those calls return the
same value. -/
theorem generateRandomEvent_fuel_implies_speed :
    ∀ (truck : Truck) (rand : ℕ → ℝ) (clock : ℕ → ℕ) (nowIso : String)
      (fmt : ℝ → String),
      (∃ a ∈ generateRandomEvent truck rand clock nowIso fmt,
        a.type = AlertType.fuel) →
      (∃ b ∈ generateRandomEvent truck rand clock nowIso fmt,
        b.type = AlertType.speed) ∧
      (clock 0 = clock 1 →
        ∀ a ∈ generateRandomEvent truck rand clock nowIso fmt,
          ∀ b ∈ generateRandomEvent truck rand clock nowIso fmt,
            a.id = b.id) := by
  intro t r c n fmt hfuel
  by_cases h02 : r 0 < 0.02
  · have h05 : r 0 < 0.05 := lt_trans h02 (by norm_num)
    constructor
    · simp only [generateRandomEvent, if_pos h05, if_pos h02]
      exact ⟨_, List.mem_cons_self _ _, rfl⟩
    · intro hc a ha b hb
      simp only [generateRandomEvent, if_pos h05, if_pos h02] at ha hb
      rcases List.mem_cons.mp ha with rfl | ha2 <;>
        rcases List.mem_cons.mp hb with rfl | hb2
      · rfl
      · rcases List.mem_singleton.mp (by simpa using hb2) with rfl
        simp [hc]
      · rcases List.mem_singleton.mp (by simpa using ha2) with rfl
        simp [hc]
      · rcases List.mem_singleton.mp (by simpa using ha2) with rfl
        rcases List.mem_singleton.mp (by simpa using hb2) with rfl
        rfl
  · exfalso
    obtain ⟨a, ha, hty⟩ := hfuel
    simp only [generateRandomEvent, if_neg h02, List.append_nil] at ha
    by_cases h05 : r 0 < 0.05
    · rw [if_pos h05] at ha
      rcases List.mem_singleton.mp ha with rfl
      simp at hty
    · rw [if_neg h05] at ha
      simp at ha

/-- C10 witness: with the shared draw below 0.02 and a constant clock, the
fuel alert is present, so the speed alert is present and all ids agree. -/
theorem generateRandomEvent_fuel_implies_speed_witness :
    (∃ b ∈ generateRandomEvent baseTruck (fun _ => 0.01) (fun _ => 5) "t"
      fmt0, b.type = AlertType.speed) ∧
    ((fun _ : ℕ => 5) 0 = (fun _ : ℕ => 5) 1 →
      ∀ a ∈ generateRandomEvent baseTruck (fun _ => 0.01) (fun _ => 5) "t"
        fmt0,
        ∀ b ∈ generateRandomEvent baseTruck (fun _ => 0.01) (fun _ => 5) "t"
          fmt0, a.id = b.id) :=
  generateRandomEvent_fuel_implies_speed baseTruck (fun _ => 0.01)
    (fun _ => 5) "t" fmt0 (by
      have h05 : ((fun _ : ℕ => (0.01 : ℝ)) 0) < 0.05 := by norm_num
      have h02 : ((fun _ : ℕ => (0.01 : ℝ)) 0) < 0.02 := by norm_num
      simp only [generateRandomEvent, if_pos h05, if_pos h02]
      exact ⟨_, List.mem_cons.mpr (Or.inr (List.mem_cons_self _ _)), rfl⟩)

/-! ## C2: numeric bounds on the haversine ingredients

The counterexample to the monotone-position law needs verified rational
enclosures of the cosines and sines appearing in `aVal` at concrete
angles.  All angles are written in the canonical form g * π / 360. -/

/-- Quartic upper bound on cos for arguments in [0, 1]. -/
theorem cos_poly_le {x : ℝ} (h0 : 0 ≤ x) (h1 : x ≤ 1) :
    Real.cos x ≤ 1 - x ^ 2 / 2 + x ^ 4 * (5 / 96) := by
  have hb := Real.cos_bound (x := x) (by rwa [abs_of_nonneg h0])
  rw [abs_of_nonneg h0] at hb
  have := (abs_le.mp hb).2
  linarith

/-- Quadratic lower bound on cos (valid everywhere). -/
theorem cos_poly_ge (x : ℝ) : 1 - x ^ 2 / 2 ≤ Real.cos x :=
  Real.one_sub_sq_div_two_le_cos

/-- sin is bounded by its argument on the nonnegative axis. -/
theorem sin_le_arg {x : ℝ} (h0 : 0 ≤ x) : Real.sin x ≤ x := by
  rcases h0.eq_or_lt with h | h
  · rw [← h, Real.sin_zero]
  · exact (Real.sin_lt h).le

/-- Cubic-with-remainder lower bound on sin for arguments in [0, 1]. -/
theorem sin_poly_ge {x : ℝ} (h0 : 0 ≤ x) (h1 : x ≤ 1) :
    x - x ^ 3 / 6 - x ^ 4 * (5 / 96) ≤ Real.sin x := by
  have hb := Real.sin_bound (x := x) (by rwa [abs_of_nonneg h0])
  rw [abs_of_nonneg h0] at hb
  have := (abs_le.mp hb).1
  linarith

/-- Rational enclosure of a degree angle g * π / 360. -/
theorem deg_bounds {g : ℝ} (hg : 0 ≤ g) :
    g * 3.141592 / 360 ≤ g * π / 360 ∧ g * π / 360 ≤ g * 3.141593 / 360 := by
  have h1 := Real.pi_gt_d6
  have h2 := Real.pi_lt_d6
  constructor <;> nlinarith

/-- Rational enclosure of cos at a degree angle: monotone transfer of the
polynomial bounds through the enclosure of the angle. -/
theorem cos_deg_bounds (g lo hi : ℝ) (hg : 0 ≤ g)
    (h1 : g * 3.141593 / 360 ≤ 1)
    (hlo : lo ≤ 1 - (g * 3.141593 / 360) ^ 2 / 2)
    (hhi : 1 - (g * 3.141592 / 360) ^ 2 / 2 +
      (g * 3.141593 / 360) ^ 4 * (5 / 96) ≤ hi) :
    lo ≤ Real.cos (g * π / 360) ∧ Real.cos (g * π / 360) ≤ hi := by
  obtain ⟨ha, hb⟩ := deg_bounds hg
  have hx0 : 0 ≤ g * π / 360 := by positivity
  have ha0 : 0 ≤ g * 3.141592 / 360 := by positivity
  constructor
  · have hc := cos_poly_ge (g * π / 360)
    have hx2 : (g * π / 360) ^ 2 ≤ (g * 3.141593 / 360) ^ 2 := by nlinarith
    linarith
  · have hc := cos_poly_le hx0 (le_trans hb h1)
    have hx2 : (g * 3.141592 / 360) ^ 2 ≤ (g * π / 360) ^ 2 := by nlinarith
    have hx4 : (g * π / 360) ^ 4 ≤ (g * 3.141593 / 360) ^ 4 :=
      pow_le_pow_left₀ hx0 hb 4
    linarith

/-- Rational enclosure of sin at a degree angle. -/
theorem sin_deg_bounds (g lo hi : ℝ) (hg : 0 ≤ g)
    (h1 : g * 3.141593 / 360 ≤ 1)
    (hlo : lo ≤ g * 3.141592 / 360 - (g * 3.141593 / 360) ^ 3 / 6 -
      (g * 3.141593 / 360) ^ 4 * (5 / 96))
    (hhi : g * 3.141593 / 360 ≤ hi) :
    lo ≤ Real.sin (g * π / 360) ∧ Real.sin (g * π / 360) ≤ hi := by
  obtain ⟨ha, hb⟩ := deg_bounds hg
  have hx0 : 0 ≤ g * π / 360 := by positivity
  constructor
  · have hs := sin_poly_ge hx0 (le_trans hb h1)
    have hx3 : (g * π / 360) ^ 3 ≤ (g * 3.141593 / 360) ^ 3 :=
      pow_le_pow_left₀ hx0 hb 3
    have hx4 : (g * π / 360) ^ 4 ≤ (g * 3.141593 / 360) ^ 4 :=
      pow_le_pow_left₀ hx0 hb 4
    linarith
  · exact le_trans (sin_le_arg hx0) (le_trans hb hhi)

/-- Co-function shift: the sine of an obtuse degree angle as a cosine. -/
theorem sin_big_as_cos (d : ℝ) :
    Real.sin (d * π / 360) = Real.cos ((d - 180) * π / 360) := by
  rw [show (d - 180) * π / 360 = -(π / 2 - d * π / 360) by ring, Real.cos_neg,
    Real.cos_pi_div_two_sub]

/-- Verified enclosure of cos (45.5 * pi / 360). -/
theorem cpB :
    0.921170 ≤ Real.cos (45.5 * π / 360) ∧
      Real.cos (45.5 * π / 360) ≤ 0.922466 :=
  cos_deg_bounds 45.5 0.921170 0.922466 (by norm_num) (by norm_num)
    (by norm_num) (by norm_num)

/-- Verified enclosure of cos (56.7996 * pi / 360). -/
theorem c0B :
    0.877155 ≤ Real.cos (56.7996 * π / 360) ∧
      Real.cos (56.7996 * π / 360) ≤ 0.880300 :=
  cos_deg_bounds 56.7996 0.877155 0.880300 (by norm_num) (by norm_num)
    (by norm_num) (by norm_num)

/-- Verified enclosure of cos (52.6672 * pi / 360). -/
theorem c1B :
    0.894380 ≤ Real.cos (52.6672 * π / 360) ∧
      Real.cos (52.6672 * π / 360) ≤ 0.896705 :=
  cos_deg_bounds 52.6672 0.894380 0.896705 (by norm_num) (by norm_num)
    (by norm_num) (by norm_num)

/-- Verified enclosure of cos (49.4272 * pi / 360). -/
theorem c2B :
    0.906975 ≤ Real.cos (49.4272 * π / 360) ∧
      Real.cos (49.4272 * π / 360) ≤ 0.908779 :=
  cos_deg_bounds 49.4272 0.906975 0.908779 (by norm_num) (by norm_num)
    (by norm_num) (by norm_num)

/-- Verified enclosure of cos (36.4328 * pi / 360). -/
theorem c4B :
    0.949458 ≤ Real.cos (36.4328 * π / 360) ∧
      Real.cos (36.4328 * π / 360) ≤ 0.949991 :=
  cos_deg_bounds 36.4328 0.949458 0.949991 (by norm_num) (by norm_num)
    (by norm_num) (by norm_num)

/-- Verified enclosure of cos (33.802 * pi / 360). -/
theorem c5B :
    0.956493 ≤ Real.cos (33.802 * π / 360) ∧
      Real.cos (33.802 * π / 360) ≤ 0.956889 :=
  cos_deg_bounds 33.802 0.956493 0.956889 (by norm_num) (by norm_num)
    (by norm_num) (by norm_num)

/-- Verified enclosure of cos (26.57 * pi / 360). -/
theorem q0B :
    0.973118 ≤ Real.cos (26.57 * π / 360) ∧
      Real.cos (26.57 * π / 360) ≤ 0.973270 :=
  cos_deg_bounds 26.57 0.973118 0.973270 (by norm_num) (by norm_num)
    (by norm_num) (by norm_num)

/-- Verified enclosure of cos (33.0504 * pi / 360). -/
theorem q1B :
    0.958407 ≤ Real.cos (33.0504 * π / 360) ∧
      Real.cos (33.0504 * π / 360) ≤ 0.958768 :=
  cos_deg_bounds 33.0504 0.958407 0.958768 (by norm_num) (by norm_num)
    (by norm_num) (by norm_num)

/-- Verified enclosure of cos (36.6753 * pi / 360). -/
theorem q2B :
    0.948783 ≤ Real.cos (36.6753 * π / 360) ∧
      Real.cos (36.6753 * π / 360) ≤ 0.949330 :=
  cos_deg_bounds 36.6753 0.948783 0.949330 (by norm_num) (by norm_num)
    (by norm_num) (by norm_num)

/-- Verified enclosure of cos (33.1667 * pi / 360). -/
theorem q3B :
    0.958113 ≤ Real.cos (33.1667 * π / 360) ∧
      Real.cos (33.1667 * π / 360) ≤ 0.958480 :=
  cos_deg_bounds 33.1667 0.958113 0.958480 (by norm_num) (by norm_num)
    (by norm_num) (by norm_num)

/-- Verified enclosure of cos (32.5053 * pi / 360). -/
theorem q4B :
    0.959767 ≤ Real.cos (32.5053 * π / 360) ∧
      Real.cos (32.5053 * π / 360) ≤ 0.960106 :=
  cos_deg_bounds 32.5053 0.959767 0.960106 (by norm_num) (by norm_num)
    (by norm_num) (by norm_num)

/-- Verified enclosure of cos (32.5663 * pi / 360). -/
theorem q5B :
    0.959616 ≤ Real.cos (32.5663 * π / 360) ∧
      Real.cos (32.5663 * π / 360) ≤ 0.959957 :=
  cos_deg_bounds 32.5663 0.959616 0.959957 (by norm_num) (by norm_num)
    (by norm_num) (by norm_num)

/-- Verified enclosure of sin (5.6498 * pi / 360). -/
theorem s0B :
    0.049283 ≤ Real.sin (5.6498 * π / 360) ∧
      Real.sin (5.6498 * π / 360) ≤ 0.049304 :=
  sin_deg_bounds 5.6498 0.049283 0.049304 (by norm_num) (by norm_num)
    (by norm_num) (by norm_num)

/-- Verified enclosure of sin (3.5836 * pi / 360). -/
theorem s1B :
    0.031267 ≤ Real.sin (3.5836 * π / 360) ∧
      Real.sin (3.5836 * π / 360) ≤ 0.031273 :=
  sin_deg_bounds 3.5836 0.031267 0.031273 (by norm_num) (by norm_num)
    (by norm_num) (by norm_num)

/-- Verified enclosure of sin (1.9636 * pi / 360). -/
theorem s2B :
    0.017134 ≤ Real.sin (1.9636 * π / 360) ∧
      Real.sin (1.9636 * π / 360) ≤ 0.017136 :=
  sin_deg_bounds 1.9636 0.017134 0.017136 (by norm_num) (by norm_num)
    (by norm_num) (by norm_num)

/-- Verified enclosure of sin (4.5336 * pi / 360). -/
theorem s4B :
    0.039552 ≤ Real.sin (4.5336 * π / 360) ∧
      Real.sin (4.5336 * π / 360) ≤ 0.039564 :=
  sin_deg_bounds 4.5336 0.039552 0.039564 (by norm_num) (by norm_num)
    (by norm_num) (by norm_num)

/-- Verified enclosure of sin (5.849 * pi / 360). -/
theorem s5B :
    0.051019 ≤ Real.sin (5.849 * π / 360) ∧
      Real.sin (5.849 * π / 360) ≤ 0.051043 :=
  sin_deg_bounds 5.849 0.051019 0.051043 (by norm_num) (by norm_num)
    (by norm_num) (by norm_num)

/-- Truck position of the monotone-law counterexample. -/
def pStar : Position := { lat := 22.75, lng := -170 }

/-- Coordinates of the Tabuk waypoint of Highway_15. -/
def tabukPos : Position := { lat := 28.3998, lng := 36.5700 }

/-- Coordinates of the Hail waypoint of Highway_15. -/
def hailPos : Position := { lat := 26.3336, lng := 43.0504 }

/-- Coordinates of the Riyadh waypoint of Highway_15. -/
def riyadhPos : Position := { lat := 24.7136, lng := 46.6753 }

/-- Coordinates of the Bishah waypoint of Highway_15. -/
def bishahPos : Position := { lat := 22.7500, lng := 43.1667 }

/-- Coordinates of the Abha waypoint of Highway_15. -/
def abhaPos : Position := { lat := 18.2164, lng := 42.5053 }

/-- Coordinates of the Jazan waypoint of Highway_15. -/
def jazanPos : Position := { lat := 16.9010, lng := 42.5663 }

/-- Monotone product bound for the haversine longitude term. -/
theorem hav_term_lo {c1 c2 q a1 a2 aq : ℝ}
    (h1 : a1 ≤ c1) (h2 : a2 ≤ c2) (hq : aq ≤ q)
    (ha1 : 0 ≤ a1) (ha2 : 0 ≤ a2) (haq : 0 ≤ aq) :
    a1 * a2 * (aq * aq) ≤ c1 * c2 * (q * q) := by
  have hc1 : 0 ≤ c1 := le_trans ha1 h1
  have hqq : aq * aq ≤ q * q :=
    mul_le_mul hq hq haq (le_trans haq hq)
  have h12 : a1 * a2 ≤ c1 * c2 := mul_le_mul h1 h2 ha2 hc1
  exact mul_le_mul h12 hqq (mul_nonneg haq haq) (mul_nonneg hc1 (le_trans ha2 h2))

/-- Verified enclosure of the haversine value from pStar to tabukPos. -/
theorem aval0B :
    0.767579 ≤ aVal pStar tabukPos ∧ aVal pStar tabukPos ≤ 0.771646 := by
  have hCp := cpB
  have hC := c0B
  have hQ := q0B
  have hS := s0B
  have hQ0 : (0:ℝ) ≤ Real.cos (26.57 * π / 360) := le_trans (by norm_num) hQ.1
  have hCp0 : (0:ℝ) ≤ Real.cos (45.5 * π / 360) := le_trans (by norm_num) hCp.1
  have hC0 : (0:ℝ) ≤ Real.cos (56.7996 * π / 360) := le_trans (by norm_num) hC.1
  simp only [aVal, pStar, tabukPos]
  rw [show (28.3998 - 22.75 : ℝ) * π / 180 / 2 = 5.6498 * π / 360 by ring]
  rw [show (22.75 : ℝ) * π / 180 = 45.5 * π / 360 by ring,
    show (28.3998 : ℝ) * π / 180 = 56.7996 * π / 360 by ring,
    show (36.5700 - -170 : ℝ) * π / 180 / 2 = 206.57 * π / 360 by ring,
    sin_big_as_cos 206.57,
    show (206.57 - 180 : ℝ) * π / 360 = 26.57 * π / 360 by ring]
  have hS0 : (0:ℝ) ≤ Real.sin (5.6498 * π / 360) := le_trans (by norm_num) hS.1
  have hssLo : (0.049283 : ℝ) * 0.049283 ≤
      Real.sin (5.6498 * π / 360) * Real.sin (5.6498 * π / 360) :=
    mul_le_mul hS.1 hS.1 (by norm_num) hS0
  have hssHi : Real.sin (5.6498 * π / 360) * Real.sin (5.6498 * π / 360) ≤
      (0.049304 : ℝ) * 0.049304 :=
    mul_le_mul hS.2 hS.2 hS0 (by norm_num)
  constructor
  · have h := hav_term_lo hCp.1 hC.1 hQ.1 (by norm_num) (by norm_num)
      (by norm_num)
    nlinarith [h, hssLo]
  · have h := hav_term_lo hCp.2 hC.2 hQ.2 hCp0 hC0 hQ0
    nlinarith [h, hssHi]

/-- Verified enclosure of the haversine value from pStar to hailPos. -/
theorem aval1B :
    0.757743 ≤ aVal pStar hailPos ∧ aVal pStar hailPos ≤ 0.761352 := by
  have hCp := cpB
  have hC := c1B
  have hQ := q1B
  have hS := s1B
  have hQ0 : (0:ℝ) ≤ Real.cos (33.0504 * π / 360) := le_trans (by norm_num) hQ.1
  have hCp0 : (0:ℝ) ≤ Real.cos (45.5 * π / 360) := le_trans (by norm_num) hCp.1
  have hC0 : (0:ℝ) ≤ Real.cos (52.6672 * π / 360) := le_trans (by norm_num) hC.1
  simp only [aVal, pStar, hailPos]
  rw [show (26.3336 - 22.75 : ℝ) * π / 180 / 2 = 3.5836 * π / 360 by ring]
  rw [show (22.75 : ℝ) * π / 180 = 45.5 * π / 360 by ring,
    show (26.3336 : ℝ) * π / 180 = 52.6672 * π / 360 by ring,
    show (43.0504 - -170 : ℝ) * π / 180 / 2 = 213.0504 * π / 360 by ring,
    sin_big_as_cos 213.0504,
    show (213.0504 - 180 : ℝ) * π / 360 = 33.0504 * π / 360 by ring]
  have hS0 : (0:ℝ) ≤ Real.sin (3.5836 * π / 360) := le_trans (by norm_num) hS.1
  have hssLo : (0.031267 : ℝ) * 0.031267 ≤
      Real.sin (3.5836 * π / 360) * Real.sin (3.5836 * π / 360) :=
    mul_le_mul hS.1 hS.1 (by norm_num) hS0
  have hssHi : Real.sin (3.5836 * π / 360) * Real.sin (3.5836 * π / 360) ≤
      (0.031273 : ℝ) * 0.031273 :=
    mul_le_mul hS.2 hS.2 hS0 (by norm_num)
  constructor
  · have h := hav_term_lo hCp.1 hC.1 hQ.1 (by norm_num) (by norm_num)
      (by norm_num)
    nlinarith [h, hssLo]
  · have h := hav_term_lo hCp.2 hC.2 hQ.2 hCp0 hC0 hQ0
    nlinarith [h, hssHi]

/-- Verified enclosure of the haversine value from pStar to riyadhPos. -/
theorem aval2B :
    0.752381 ≤ aVal pStar riyadhPos ∧ aVal pStar riyadhPos ≤ 0.755809 := by
  have hCp := cpB
  have hC := c2B
  have hQ := q2B
  have hS := s2B
  have hQ0 : (0:ℝ) ≤ Real.cos (36.6753 * π / 360) := le_trans (by norm_num) hQ.1
  have hCp0 : (0:ℝ) ≤ Real.cos (45.5 * π / 360) := le_trans (by norm_num) hCp.1
  have hC0 : (0:ℝ) ≤ Real.cos (49.4272 * π / 360) := le_trans (by norm_num) hC.1
  simp only [aVal, pStar, riyadhPos]
  rw [show (24.7136 - 22.75 : ℝ) * π / 180 / 2 = 1.9636 * π / 360 by ring]
  rw [show (22.75 : ℝ) * π / 180 = 45.5 * π / 360 by ring,
    show (24.7136 : ℝ) * π / 180 = 49.4272 * π / 360 by ring,
    show (46.6753 - -170 : ℝ) * π / 180 / 2 = 216.6753 * π / 360 by ring,
    sin_big_as_cos 216.6753,
    show (216.6753 - 180 : ℝ) * π / 360 = 36.6753 * π / 360 by ring]
  have hS0 : (0:ℝ) ≤ Real.sin (1.9636 * π / 360) := le_trans (by norm_num) hS.1
  have hssLo : (0.017134 : ℝ) * 0.017134 ≤
      Real.sin (1.9636 * π / 360) * Real.sin (1.9636 * π / 360) :=
    mul_le_mul hS.1 hS.1 (by norm_num) hS0
  have hssHi : Real.sin (1.9636 * π / 360) * Real.sin (1.9636 * π / 360) ≤
      (0.017136 : ℝ) * 0.017136 :=
    mul_le_mul hS.2 hS.2 hS0 (by norm_num)
  constructor
  · have h := hav_term_lo hCp.1 hC.1 hQ.1 (by norm_num) (by norm_num)
      (by norm_num)
    nlinarith [h, hssLo]
  · have h := hav_term_lo hCp.2 hC.2 hQ.2 hCp0 hC0 hQ0
    nlinarith [h, hssHi]

/-- Verified enclosure of the haversine value from pStar to bishahPos. -/
theorem aval3B :
    0.778956 ≤ aVal pStar bishahPos ∧ aVal pStar bishahPos ≤ 0.781749 := by
  have hCp := cpB
  have hC := cpB
  have hQ := q3B
  have hQ0 : (0:ℝ) ≤ Real.cos (33.1667 * π / 360) := le_trans (by norm_num) hQ.1
  have hCp0 : (0:ℝ) ≤ Real.cos (45.5 * π / 360) := le_trans (by norm_num) hCp.1
  have hC0 : (0:ℝ) ≤ Real.cos (45.5 * π / 360) := le_trans (by norm_num) hC.1
  simp only [aVal, pStar, bishahPos]
  rw [show (22.7500 - 22.75 : ℝ) * π / 180 / 2 = 0 by ring, Real.sin_zero]
  rw [show (22.75 : ℝ) * π / 180 = 45.5 * π / 360 by ring,
    show (22.7500 : ℝ) * π / 180 = 45.5 * π / 360 by ring,
    show (43.1667 - -170 : ℝ) * π / 180 / 2 = 213.1667 * π / 360 by ring,
    sin_big_as_cos 213.1667,
    show (213.1667 - 180 : ℝ) * π / 360 = 33.1667 * π / 360 by ring]
  constructor
  · have h := hav_term_lo hCp.1 hC.1 hQ.1 (by norm_num) (by norm_num)
      (by norm_num)
    nlinarith [h]
  · have h := hav_term_lo hCp.2 hC.2 hQ.2 hCp0 hC0 hQ0
    nlinarith [h]

/-- Verified enclosure of the haversine value from pStar to abhaPos. -/
theorem aval4B :
    0.807215 ≤ aVal pStar abhaPos ∧ aVal pStar abhaPos ≤ 0.809374 := by
  have hCp := cpB
  have hC := c4B
  have hQ := q4B
  have hS := s4B
  have hQ0 : (0:ℝ) ≤ Real.cos (32.5053 * π / 360) := le_trans (by norm_num) hQ.1
  have hCp0 : (0:ℝ) ≤ Real.cos (45.5 * π / 360) := le_trans (by norm_num) hCp.1
  have hC0 : (0:ℝ) ≤ Real.cos (36.4328 * π / 360) := le_trans (by norm_num) hC.1
  simp only [aVal, pStar, abhaPos]
  rw [show (18.2164 - 22.75 : ℝ) * π / 180 / 2 = -(4.5336 * π / 360) by ring,
    Real.sin_neg, neg_mul_neg]
  rw [show (22.75 : ℝ) * π / 180 = 45.5 * π / 360 by ring,
    show (18.2164 : ℝ) * π / 180 = 36.4328 * π / 360 by ring,
    show (42.5053 - -170 : ℝ) * π / 180 / 2 = 212.5053 * π / 360 by ring,
    sin_big_as_cos 212.5053,
    show (212.5053 - 180 : ℝ) * π / 360 = 32.5053 * π / 360 by ring]
  have hS0 : (0:ℝ) ≤ Real.sin (4.5336 * π / 360) := le_trans (by norm_num) hS.1
  have hssLo : (0.039552 : ℝ) * 0.039552 ≤
      Real.sin (4.5336 * π / 360) * Real.sin (4.5336 * π / 360) :=
    mul_le_mul hS.1 hS.1 (by norm_num) hS0
  have hssHi : Real.sin (4.5336 * π / 360) * Real.sin (4.5336 * π / 360) ≤
      (0.039564 : ℝ) * 0.039564 :=
    mul_le_mul hS.2 hS.2 hS0 (by norm_num)
  constructor
  · have h := hav_term_lo hCp.1 hC.1 hQ.1 (by norm_num) (by norm_num)
      (by norm_num)
    nlinarith [h, hssLo]
  · have h := hav_term_lo hCp.2 hC.2 hQ.2 hCp0 hC0 hQ0
    nlinarith [h, hssHi]

/-- Verified enclosure of the haversine value from pStar to jazanPos. -/
theorem aval5B :
    0.813968 ≤ aVal pStar jazanPos ∧ aVal pStar jazanPos ≤ 0.816027 := by
  have hCp := cpB
  have hC := c5B
  have hQ := q5B
  have hS := s5B
  have hQ0 : (0:ℝ) ≤ Real.cos (32.5663 * π / 360) := le_trans (by norm_num) hQ.1
  have hCp0 : (0:ℝ) ≤ Real.cos (45.5 * π / 360) := le_trans (by norm_num) hCp.1
  have hC0 : (0:ℝ) ≤ Real.cos (33.802 * π / 360) := le_trans (by norm_num) hC.1
  simp only [aVal, pStar, jazanPos]
  rw [show (16.9010 - 22.75 : ℝ) * π / 180 / 2 = -(5.849 * π / 360) by ring,
    Real.sin_neg, neg_mul_neg]
  rw [show (22.75 : ℝ) * π / 180 = 45.5 * π / 360 by ring,
    show (16.9010 : ℝ) * π / 180 = 33.802 * π / 360 by ring,
    show (42.5663 - -170 : ℝ) * π / 180 / 2 = 212.5663 * π / 360 by ring,
    sin_big_as_cos 212.5663,
    show (212.5663 - 180 : ℝ) * π / 360 = 32.5663 * π / 360 by ring]
  have hS0 : (0:ℝ) ≤ Real.sin (5.849 * π / 360) := le_trans (by norm_num) hS.1
  have hssLo : (0.051019 : ℝ) * 0.051019 ≤
      Real.sin (5.849 * π / 360) * Real.sin (5.849 * π / 360) :=
    mul_le_mul hS.1 hS.1 (by norm_num) hS0
  have hssHi : Real.sin (5.849 * π / 360) * Real.sin (5.849 * π / 360) ≤
      (0.051043 : ℝ) * 0.051043 :=
    mul_le_mul hS.2 hS.2 hS0 (by norm_num)
  constructor
  · have h := hav_term_lo hCp.1 hC.1 hQ.1 (by norm_num) (by norm_num)
      (by norm_num)
    nlinarith [h, hssLo]
  · have h := hav_term_lo hCp.2 hC.2 hQ.2 hCp0 hC0 hQ0
    nlinarith [h, hssHi]

/-! ## C2: comparing haversine distances through the haversine values -/

/-- calculateDistance expressed through the haversine value. -/
theorem calculateDistance_def (p q : Position) :
    calculateDistance p q =
      6371 * (2 * atan2 (Real.sqrt (aVal p q)) (Real.sqrt (1 - aVal p q))) :=
  rfl

/-- Strictly larger haversine value means strictly larger distance. -/
theorem calcDist_lt_calcDist {p q p' q' : Position} (h0 : 0 ≤ aVal p q)
    (h1 : aVal p' q' < 1) (h : aVal p q < aVal p' q') :
    calculateDistance p q < calculateDistance p' q' := by
  rw [calculateDistance_def, calculateDistance_def]
  have h1a : 0 < 1 - aVal p q := by linarith
  have h1b : 0 < 1 - aVal p' q' := by linarith
  unfold atan2
  rw [if_pos (Real.sqrt_pos.mpr h1a), if_pos (Real.sqrt_pos.mpr h1b)]
  have harg : Real.sqrt (aVal p q) / Real.sqrt (1 - aVal p q) <
      Real.sqrt (aVal p' q') / Real.sqrt (1 - aVal p' q') := by
    have hn : Real.sqrt (aVal p q) < Real.sqrt (aVal p' q') :=
      Real.sqrt_lt_sqrt h0 h
    have hd : Real.sqrt (1 - aVal p' q') ≤ Real.sqrt (1 - aVal p q) :=
      Real.sqrt_le_sqrt (by linarith)
    have hd0 : 0 < Real.sqrt (1 - aVal p' q') := Real.sqrt_pos.mpr h1b
    exact div_lt_div₀ hn hd (Real.sqrt_nonneg _) hd0
  have hmono := Real.arctan_strictMono harg
  linarith [hmono]

/-- Larger-or-equal haversine value means larger-or-equal distance. -/
theorem calcDist_le_calcDist {p q p' q' : Position} (h0 : 0 ≤ aVal p q)
    (h1 : aVal p' q' < 1) (h : aVal p q ≤ aVal p' q') :
    calculateDistance p q ≤ calculateDistance p' q' := by
  rcases h.eq_or_lt with he | hl
  · rw [calculateDistance_def, calculateDistance_def, he]
  · exact (calcDist_lt_calcDist h0 h1 hl).le

/-- A haversine value of at least one half puts the distance beyond a
quarter of the Earth's circumference, certainly beyond 9556 km. -/
theorem calcDist_big {p q : Position} (h : 1 / 2 ≤ aVal p q)
    (h1 : aVal p q < 1) : 9556 ≤ calculateDistance p q := by
  rw [calculateDistance_def]
  have h1a : 0 < 1 - aVal p q := by linarith
  unfold atan2
  rw [if_pos (Real.sqrt_pos.mpr h1a)]
  have hratio : 1 ≤ Real.sqrt (aVal p q) / Real.sqrt (1 - aVal p q) := by
    rw [le_div_iff₀ (Real.sqrt_pos.mpr h1a), one_mul]
    exact Real.sqrt_le_sqrt (by linarith)
  have harc : π / 4 ≤
      Real.arctan (Real.sqrt (aVal p q) / Real.sqrt (1 - aVal p q)) := by
    rw [← Real.arctan_one]
    exact Real.arctan_strictMono.monotone hratio
  have hpi := Real.pi_gt_three
  nlinarith [harc]

/-! ## C2: the nearest waypoint for the counterexample truck -/

/-- One step of the findNearestWaypoint scan. -/
theorem nearestLoop_cons (pos : Position) (w : NamedWaypoint)
    (rest : List NamedWaypoint) (i : ℕ) (acc : NearestResult) :
    nearestLoop pos (w :: rest) i acc =
      nearestLoop pos rest (i + 1)
        (if calculateDistance pos w.pos < acc.distance then
          { waypoint := w, index := i,
            distance := calculateDistance pos w.pos }
        else acc) :=
  rfl

/-- End of the findNearestWaypoint scan. -/
theorem nearestLoop_nil (pos : Position) (i : ℕ) (acc : NearestResult) :
    nearestLoop pos [] i acc = acc :=
  rfl

/-- The Hail waypoint is strictly closer to pStar than Tabuk. -/
theorem dist_hail_lt_tabuk :
    calculateDistance pStar hailPos < calculateDistance pStar tabukPos :=
  calcDist_lt_calcDist (le_trans (by norm_num) aval1B.1)
    (lt_of_le_of_lt aval0B.2 (by norm_num))
    (by linarith [aval1B.2, aval0B.1])

/-- The Riyadh waypoint is strictly closer to pStar than Hail. -/
theorem dist_riyadh_lt_hail :
    calculateDistance pStar riyadhPos < calculateDistance pStar hailPos :=
  calcDist_lt_calcDist (le_trans (by norm_num) aval2B.1)
    (lt_of_le_of_lt aval1B.2 (by norm_num))
    (by linarith [aval2B.2, aval1B.1])

/-- The Riyadh waypoint is at most as far from pStar as Bishah. -/
theorem dist_riyadh_le_bishah :
    calculateDistance pStar riyadhPos ≤ calculateDistance pStar bishahPos :=
  calcDist_le_calcDist (le_trans (by norm_num) aval2B.1)
    (lt_of_le_of_lt aval3B.2 (by norm_num))
    (by linarith [aval2B.2, aval3B.1])

/-- The Riyadh waypoint is at most as far from pStar as Abha. -/
theorem dist_riyadh_le_abha :
    calculateDistance pStar riyadhPos ≤ calculateDistance pStar abhaPos :=
  calcDist_le_calcDist (le_trans (by norm_num) aval2B.1)
    (lt_of_le_of_lt aval4B.2 (by norm_num))
    (by linarith [aval2B.2, aval4B.1])

/-- The Riyadh waypoint is at most as far from pStar as Jazan. -/
theorem dist_riyadh_le_jazan :
    calculateDistance pStar riyadhPos ≤ calculateDistance pStar jazanPos :=
  calcDist_le_calcDist (le_trans (by norm_num) aval2B.1)
    (lt_of_le_of_lt aval5B.2 (by norm_num))
    (by linarith [aval2B.2, aval5B.1])

/-- For the counterexample truck the nearest Highway_15 waypoint is Riyadh,
at index 2. -/
theorem findNearest_pStar :
    findNearestWaypoint pStar "Highway_15" =
      some { waypoint := ⟨24.7136, 46.6753, "Riyadh"⟩, index := 2,
             distance := calculateDistance pStar riyadhPos } := by
  have e : SAUDI_HIGHWAYS "Highway_15" = some highway15 := rfl
  have e0 : NamedWaypoint.pos ⟨28.3998, 36.5700, "Tabuk"⟩ = tabukPos := rfl
  have e1 : NamedWaypoint.pos ⟨26.3336, 43.0504, "Hail"⟩ = hailPos := rfl
  have e2 : NamedWaypoint.pos ⟨24.7136, 46.6753, "Riyadh"⟩ = riyadhPos := rfl
  have e3 : NamedWaypoint.pos ⟨22.7500, 43.1667, "Bishah"⟩ = bishahPos := rfl
  have e4 : NamedWaypoint.pos ⟨18.2164, 42.5053, "Abha"⟩ = abhaPos := rfl
  have e5 : NamedWaypoint.pos ⟨16.9010, 42.5663, "Jazan"⟩ = jazanPos := rfl
  unfold findNearestWaypoint
  rw [e]
  simp only [highway15]
  rw [nearestLoop_cons, e0]
  dsimp only
  rw [if_neg (lt_irrefl (calculateDistance pStar tabukPos))]
  rw [nearestLoop_cons, e1]
  dsimp only
  rw [if_pos dist_hail_lt_tabuk]
  rw [nearestLoop_cons, e2]
  dsimp only
  rw [if_pos dist_riyadh_lt_hail]
  rw [nearestLoop_cons, e3]
  dsimp only
  rw [if_neg (not_lt.mpr dist_riyadh_le_bishah)]
  rw [nearestLoop_cons, e4]
  dsimp only
  rw [if_neg (not_lt.mpr dist_riyadh_le_abha)]
  rw [nearestLoop_cons, e5]
  dsimp only
  rw [if_neg (not_lt.mpr dist_riyadh_le_jazan)]
  rw [nearestLoop_nil]

/-! ## C2: the counterexample tick -/

/-- Counterexample truck: west of the date line on route Highway 15. -/
def ceTruck : Truck :=
  { baseTruck with
    currentPosition := pStar
    route := "Highway 15"
    speed := 60 }

/-- The distance from pStar to the Bishah waypoint exceeds 9556 km. -/
theorem dist_pStar_bishah_big : 9556 ≤ calculateDistance pStar bishahPos :=
  calcDist_big (le_trans (by norm_num) aval3B.1)
    (lt_of_le_of_lt aval3B.2 (by norm_num))

/-- Core of the counterexample: interpolating from pStar toward Bishah by
any sufficiently small positive fraction strictly INCREASES the haversine
value (the longitude gap exceeds 180 degrees, so the coordinate chord
first walks away from Bishah on the sphere). -/
theorem aval_move_lt (t : ℝ) (ts : Option String) (ht0 : 0 < t)
    (ht1 : t ≤ 1 / 4000) :
    aVal pStar bishahPos <
      aVal { lat := 22.75 + (22.7500 - 22.75) * t,
             lng := -170 + (43.1667 - -170) * t,
             timestamp := ts } bishahPos ∧
    aVal { lat := 22.75 + (22.7500 - 22.75) * t,
           lng := -170 + (43.1667 - -170) * t,
           timestamp := ts } bishahPos < 1 ∧
    0 ≤ aVal pStar bishahPos := by
  have hpi := Real.pi_pos
  have hQ := q3B
  have hCp := cpB
  simp only [aVal, pStar, bishahPos]
  rw [show (22.7500 - 22.75 : ℝ) * π / 180 / 2 = 0 by ring, Real.sin_zero,
    show (22.75 : ℝ) * π / 180 = 45.5 * π / 360 by ring,
    show (22.7500 : ℝ) * π / 180 = 45.5 * π / 360 by ring,
    show (43.1667 - -170 : ℝ) * π / 180 / 2 = 213.1667 * π / 360 by ring,
    sin_big_as_cos 213.1667,
    show (213.1667 - 180 : ℝ) * π / 360 = 33.1667 * π / 360 by ring]
  rw [show (22.7500 - (22.75 + (22.7500 - 22.75) * t) : ℝ) * π / 180 / 2 = 0
      by ring, Real.sin_zero,
    show ((22.75 + (22.7500 - 22.75) * t : ℝ)) * π / 180 = 45.5 * π / 360
      by ring,
    show (43.1667 - (-170 + (43.1667 - -170) * t) : ℝ) * π / 180 / 2 =
      (213.1667 * (1 - t)) * π / 360 by ring,
    sin_big_as_cos (213.1667 * (1 - t)),
    show (213.1667 * (1 - t) - 180 : ℝ) * π / 360 =
      (33.1667 - 213.1667 * t) * π / 360 by ring]
  have hu0 : (0 : ℝ) ≤ 33.1667 - 213.1667 * t := by linarith
  have huarg0 : (0 : ℝ) ≤ (33.1667 - 213.1667 * t) * π / 360 := by
    have := mul_nonneg hu0 hpi.le
    linarith
  have hvpi : (33.1667 : ℝ) * π / 360 ≤ π := by nlinarith
  have harglt : (33.1667 - 213.1667 * t) * π / 360 < 33.1667 * π / 360 := by
    have h1 : (33.1667 - 213.1667 * t) * π < 33.1667 * π :=
      mul_lt_mul_of_pos_right (by linarith) hpi
    linarith
  have hcoslt : Real.cos (33.1667 * π / 360) <
      Real.cos ((33.1667 - 213.1667 * t) * π / 360) :=
    Real.cos_lt_cos_of_nonneg_of_le_pi huarg0 hvpi harglt
  have hQpos : (0 : ℝ) < Real.cos (33.1667 * π / 360) := by
    have := hQ.1
    linarith
  have hQupos : (0 : ℝ) < Real.cos ((33.1667 - 213.1667 * t) * π / 360) :=
    lt_trans hQpos hcoslt
  have hCpos : (0 : ℝ) < Real.cos (45.5 * π / 360) := by
    have := hCp.1
    linarith
  refine ⟨?_, ?_, ?_⟩
  · nlinarith [mul_pos (mul_pos hCpos hCpos)
      (mul_pos (sub_pos.mpr hcoslt) (add_pos hQpos hQupos))]
  · have h1 : Real.cos ((33.1667 - 213.1667 * t) * π / 360) ≤ 1 :=
      Real.cos_le_one _
    have h2 : Real.cos (45.5 * π / 360) ≤ 0.922466 := hCp.2
    have hC2 : Real.cos (45.5 * π / 360) * Real.cos (45.5 * π / 360) ≤
        0.922466 * 0.922466 := mul_le_mul h2 h2 hCpos.le (by norm_num)
    have hQu2 : Real.cos ((33.1667 - 213.1667 * t) * π / 360) *
        Real.cos ((33.1667 - 213.1667 * t) * π / 360) ≤ 1 := by
      nlinarith [h1, hQupos]
    have hfin := mul_le_mul hC2 hQu2
      (mul_nonneg hQupos.le hQupos.le)
      (by norm_num : (0:ℝ) ≤ 0.922466 * 0.922466)
    have hre : (0:ℝ) * 0 + Real.cos (45.5 * π / 360) * Real.cos (45.5 * π / 360) * Real.cos ((33.1667 - 213.1667 * t) * π / 360) * Real.cos ((33.1667 - 213.1667 * t) * π / 360) = (Real.cos (45.5 * π / 360) * Real.cos (45.5 * π / 360)) * (Real.cos ((33.1667 - 213.1667 * t) * π / 360) * Real.cos ((33.1667 - 213.1667 * t) * π / 360)) := by
      ring
    rw [hre]
    calc (Real.cos (45.5 * π / 360) * Real.cos (45.5 * π / 360)) * (Real.cos ((33.1667 - 213.1667 * t) * π / 360) * Real.cos ((33.1667 - 213.1667 * t) * π / 360)) ≤ 0.922466 * 0.922466 * 1 := hfin
      _ < 1 := by norm_num
  · have hprod := mul_pos (mul_pos hCpos hCpos) (mul_pos hQpos hQpos)
    have hre : (0:ℝ) * 0 + Real.cos (45.5 * π / 360) * Real.cos (45.5 * π / 360) * Real.cos (33.1667 * π / 360) * Real.cos (33.1667 * π / 360) = (Real.cos (45.5 * π / 360) * Real.cos (45.5 * π / 360)) * (Real.cos (33.1667 * π / 360) * Real.cos (33.1667 * π / 360)) := by
      ring
    rw [hre]
    exact hprod.le

/-- Evaluation of the highway branch at the counterexample configuration:
the smoothed speed is 66 km/h, the coverable distance 2.2 km is far below
the remaining distance, and the truck interpolates toward Bishah. -/
theorem highwayMovement_ce :
    highwayMovement ceTruck (fun _ => 1 / 2) "t2" highway15
      { waypoint := ⟨24.7136, 46.6753, "Riyadh"⟩, index := 2,
        distance := calculateDistance pStar riyadhPos } =
      { currentPosition := some
          { lat := 22.75 + (22.7500 - 22.75) *
              (66 / 60 * 2 / calculateDistance pStar bishahPos),
            lng := -170 + (43.1667 - -170) *
              (66 / 60 * 2 / calculateDistance pStar bishahPos),
            timestamp := some "t2" },
        heading := some (calculateBearing pStar bishahPos),
        speed := some 66, status := none } := by
  have e3 : NamedWaypoint.pos ⟨22.7500, 43.1667, "Bishah"⟩ = bishahPos := rfl
  have hp : ceTruck.currentPosition = pStar := rfl
  have hcs : ceTruck.speed = 60 := rfl
  have hnext : highway15.waypoints.getD
      (min (2 + 1) (highway15.waypoints.length - 1)) ⟨0, 0, ""⟩ =
      ⟨22.7500, 43.1667, "Bishah"⟩ := rfl
  have hsl : highway15.speedLimits.get? 2 = some 120 := rfl
  have htf : highway15.terrainFactors.get? 2 = some (1.0 : ℝ) := rfl
  simp only [highwayMovement]
  rw [hnext, e3, hp, hcs, hsl, htf]
  simp only [jsOrNum]
  rw [if_neg (by norm_num : ¬(120 : ℝ) = 0),
    if_neg (by norm_num : ¬(1.0 : ℝ) = 0)]
  rw [show (60 : ℝ) + (120 * 1.0 * (0.8 + 1 / 2 * 0.4) - 60) * 0.1 = 66
      by norm_num]
  rw [min_eq_right (by norm_num : (66 : ℝ) ≤ 120),
    max_eq_right (by norm_num : (30 : ℝ) ≤ 66)]
  rw [if_neg (not_lt.mpr (by
    have := dist_pStar_bishah_big
    norm_num
    linarith))]
  simp only [pStar]

/-- C2 counterexample: at the concrete truck ceTruck (a reachable highway
branch configuration whose resolved route is Highway_15, with nearest
waypoint index 2, so the target waypoint is Bishah), the tick is in the
interpolation regime (coverable distance strictly below the remaining
distance), yet the great-circle distance to the target waypoint strictly
INCREASES — refuting the claimed strict decrease. -/
theorem simulate_distance_to_target_increases :
    highwaySelect ceTruck.route = "Highway_15" ∧
    (findNearestWaypoint ceTruck.currentPosition "Highway_15").map
      NearestResult.index = some 2 ∧
    (highway15.waypoints.getD (min (2 + 1) (highway15.waypoints.length - 1))
      ⟨0, 0, ""⟩).pos = bishahPos ∧
    (∃ s, (simulateRealisticMovement ceTruck (fun _ => 1 / 2) "t2").speed =
        some s ∧
      s / 60 * 2 < calculateDistance ceTruck.currentPosition bishahPos) ∧
    (∃ p, (simulateRealisticMovement ceTruck (fun _ => 1 / 2)
        "t2").currentPosition = some p ∧
      calculateDistance ceTruck.currentPosition bishahPos <
        calculateDistance p bishahPos) := by
  have hsel : highwaySelect ceTruck.route = "Highway_15" := by decide
  have hp : ceTruck.currentPosition = pStar := rfl
  have e : SAUDI_HIGHWAYS "Highway_15" = some highway15 := rfl
  have hsim : simulateRealisticMovement ceTruck (fun _ => 1 / 2) "t2" =
      highwayMovement ceTruck (fun _ => 1 / 2) "t2" highway15
        { waypoint := ⟨24.7136, 46.6753, "Riyadh"⟩, index := 2,
          distance := calculateDistance pStar riyadhPos } := by
    simp only [simulateRealisticMovement, hsel, hp, e, findNearest_pStar]
  refine ⟨hsel, ?_, rfl, ?_, ?_⟩
  · rw [hp, findNearest_pStar]
    rfl
  · rw [hsim, highwayMovement_ce, hp]
    refine ⟨66, rfl, ?_⟩
    have hdbig := dist_pStar_bishah_big
    have h22 : (66 : ℝ) / 60 * 2 = 2.2 := by norm_num
    rw [h22]
    linarith
  · rw [hsim, highwayMovement_ce, hp]
    refine ⟨_, rfl, ?_⟩
    have hdbig := dist_pStar_bishah_big
    have hdpos : (0 : ℝ) < calculateDistance pStar bishahPos := by linarith
    have ht0 : 0 < 66 / 60 * 2 / calculateDistance pStar bishahPos := by
      apply div_pos (by norm_num) hdpos
    have ht1 : 66 / 60 * 2 / calculateDistance pStar bishahPos ≤ 1 / 4000 := by
      rw [div_le_div_iff₀ hdpos (by norm_num : (0:ℝ) < 4000)]
      nlinarith
    obtain ⟨h1, h2, h3⟩ :=
      aval_move_lt (66 / 60 * 2 / calculateDistance pStar bishahPos)
        (some "t2") ht0 ht1
    exact calcDist_lt_calcDist h3 h2 h1

/-- Flat (coordinate-plane) distance between two positions. -/
noncomputable def flatDist (p q : Position) : ℝ :=
  Real.sqrt ((q.lat - p.lat) ^ 2 + (q.lng - p.lng) ^ 2)

/-- C2 (amended): in the highway branch, if the coverable distance of the
tick is at least the remaining distance to the target waypoint, the new
position is exactly the target waypoint (great-circle distance 0);
otherwise the position is interpolated toward the waypoint and the flat
coordinate distance to it strictly decreases (the great-circle distance
need not decrease; see the counterexample). -/
theorem highwayMovement_snap_and_interpolate :
    ∀ (truck : Truck) (rand : ℕ → ℝ) (now : String) (route : HighwayRoute)
      (nearest : NearestResult) (s : ℝ) (p : Position),
      (highwayMovement truck rand now route nearest).speed = some s →
      (highwayMovement truck rand now route nearest).currentPosition =
        some p →
      (calculateDistance truck.currentPosition
          (route.waypoints.getD (min (nearest.index + 1)
            (route.waypoints.length - 1)) ⟨0, 0, ""⟩).pos ≤ s / 60 * 2 →
        p.lat = (route.waypoints.getD (min (nearest.index + 1)
            (route.waypoints.length - 1)) ⟨0, 0, ""⟩).lat ∧
        p.lng = (route.waypoints.getD (min (nearest.index + 1)
            (route.waypoints.length - 1)) ⟨0, 0, ""⟩).lng ∧
        calculateDistance p (route.waypoints.getD (min (nearest.index + 1)
            (route.waypoints.length - 1)) ⟨0, 0, ""⟩).pos = 0) ∧
      (s / 60 * 2 < calculateDistance truck.currentPosition
          (route.waypoints.getD (min (nearest.index + 1)
            (route.waypoints.length - 1)) ⟨0, 0, ""⟩).pos →
        flatDist p (route.waypoints.getD (min (nearest.index + 1)
            (route.waypoints.length - 1)) ⟨0, 0, ""⟩).pos <
          flatDist truck.currentPosition
            (route.waypoints.getD (min (nearest.index + 1)
              (route.waypoints.length - 1)) ⟨0, 0, ""⟩).pos) := by
  intro truck rand now route nearest s p
  simp only [highwayMovement]
  split
  case isTrue hc =>
    intro hs hp
    replace hs := Option.some.inj hs
    replace hp := Option.some.inj hp
    subst hs
    subst hp
    constructor
    · intro _
      refine ⟨rfl, rfl, ?_⟩
      exact calculateDistance_self_coords (by simp [NamedWaypoint.pos])
        (by simp [NamedWaypoint.pos])
    · intro hlt
      exact absurd hc (not_lt.mpr hlt.le)
  case isFalse hc =>
    intro hs hp
    replace hs := Option.some.inj hs
    replace hp := Option.some.inj hp
    subst hs
    subst hp
    have hm0 : (0 : ℝ) < (max 30 (min 120 (truck.speed +
        (jsOrNum (route.speedLimits.get? nearest.index) 100 *
          jsOrNum (route.terrainFactors.get? nearest.index) 1.0 *
          (0.8 + rand 0 * 0.4) - truck.speed) * 0.1))) / 60 * 2 := by
      have h30 := (clamp_bounds (truck.speed +
        (jsOrNum (route.speedLimits.get? nearest.index) 100 *
          jsOrNum (route.terrainFactors.get? nearest.index) 1.0 *
          (0.8 + rand 0 * 0.4) - truck.speed) * 0.1)).1
      linarith
    constructor
    · intro hle
      have hdm := le_antisymm hle (not_lt.mp hc)
      have hfrac : (max 30 (min 120 (truck.speed +
          (jsOrNum (route.speedLimits.get? nearest.index) 100 *
            jsOrNum (route.terrainFactors.get? nearest.index) 1.0 *
            (0.8 + rand 0 * 0.4) - truck.speed) * 0.1))) / 60 * 2 /
          calculateDistance truck.currentPosition
            (route.waypoints.getD (min (nearest.index + 1)
              (route.waypoints.length - 1)) ⟨0, 0, ""⟩).pos = 1 := by
        rw [← hdm]
        exact div_self (by rw [hdm]; exact ne_of_gt hm0)
      refine ⟨?_, ?_, ?_⟩
      · show truck.currentPosition.lat + (_ - truck.currentPosition.lat) * _ = _
        rw [hfrac]
        ring
      · show truck.currentPosition.lng + (_ - truck.currentPosition.lng) * _ = _
        rw [hfrac]
        ring
      · refine calculateDistance_self_coords ?_ ?_
        · show truck.currentPosition.lat + (_ - truck.currentPosition.lat) * _ = _
          rw [hfrac]
          simp only [NamedWaypoint.pos]
          ring
        · show truck.currentPosition.lng + (_ - truck.currentPosition.lng) * _ = _
          rw [hfrac]
          simp only [NamedWaypoint.pos]
          ring
    · intro hlt
      have hdpos : (0 : ℝ) < calculateDistance truck.currentPosition
          (route.waypoints.getD (min (nearest.index + 1)
            (route.waypoints.length - 1)) ⟨0, 0, ""⟩).pos := lt_trans hm0 hlt
      set m := (max 30 (min 120 (truck.speed +
          (jsOrNum (route.speedLimits.get? nearest.index) 100 *
            jsOrNum (route.terrainFactors.get? nearest.index) 1.0 *
            (0.8 + rand 0 * 0.4) - truck.speed) * 0.1))) / 60 * 2 with hmdef
      set dd := calculateDistance truck.currentPosition
          (route.waypoints.getD (min (nearest.index + 1)
            (route.waypoints.length - 1)) ⟨0, 0, ""⟩).pos with hddef
      have ht0 : 0 < m / dd := div_pos hm0 hdpos
      have ht1 : m / dd < 1 := (div_lt_one hdpos).mpr hlt
      set wlat := (route.waypoints.getD (min (nearest.index + 1)
          (route.waypoints.length - 1)) ⟨0, 0, ""⟩).lat with hwlat
      set wlng := (route.waypoints.getD (min (nearest.index + 1)
          (route.waypoints.length - 1)) ⟨0, 0, ""⟩).lng with hwlng
      set clat := truck.currentPosition.lat with hclat
      set clng := truck.currentPosition.lng with hclng
      have hSpos : 0 < (wlat - clat) ^ 2 + (wlng - clng) ^ 2 := by
        have hnn : (0:ℝ) ≤ (wlat - clat) ^ 2 + (wlng - clng) ^ 2 := by
          positivity
        rcases lt_or_eq_of_le hnn with h | h
        · exact h
        · exfalso
          have ha : (wlat - clat) ^ 2 = 0 := by
            have h1 : (wlat - clat) ^ 2 ≤ 0 := by
              have := sq_nonneg (wlng - clng)
              linarith
            exact le_antisymm h1 (sq_nonneg _)
          have hb : (wlng - clng) ^ 2 = 0 := by
            have h1 : (wlng - clng) ^ 2 ≤ 0 := by
              have := sq_nonneg (wlat - clat)
              linarith
            exact le_antisymm h1 (sq_nonneg _)
          have hlat0 : clat = wlat := by
            have := (pow_eq_zero_iff (two_ne_zero)).mp ha
            linarith [this]
          have hlng0 : clng = wlng := by
            have := (pow_eq_zero_iff (two_ne_zero)).mp hb
            linarith [this]
          have hz : dd = 0 := by
            rw [hddef]
            refine calculateDistance_self_coords ?_ ?_
            · simp only [NamedWaypoint.pos]
              exact hlat0
            · simp only [NamedWaypoint.pos]
              exact hlng0
          rw [hz] at hlt
          linarith
      unfold flatDist
      apply Real.sqrt_lt_sqrt (by positivity)
      simp only [NamedWaypoint.pos]
      have hkey : (0:ℝ) < ((wlat - clat) ^ 2 + (wlng - clng) ^ 2) *
          (m / dd) * (2 - m / dd) :=
        mul_pos (mul_pos hSpos ht0) (by linarith)
      nlinarith [hkey]

/-- Truck standing exactly on the Al-Kharj waypoint of Highway_40. -/
def snapTruck : Truck :=
  { baseTruck with
    currentPosition := { lat := 24.5247, lng := 46.1792 }
    speed := 60 }

/-- Evaluation of the highway branch at the snap configuration: the truck
is already on the target waypoint, so the tick snaps it onto the waypoint
with smoothed speed 66 km/h. -/
theorem highwayMovement_snap_ce :
    highwayMovement snapTruck (fun _ => 1 / 2) "t3" highway40
      { waypoint := ⟨24.7136, 46.6753, "Riyadh"⟩, index := 0,
        distance := 0 } =
      { currentPosition := some
          { lat := 24.5247, lng := 46.1792, timestamp := some "t3" },
        heading := some (calculateBearing snapTruck.currentPosition
          (NamedWaypoint.pos ⟨24.5247, 46.1792, "Al-Kharj"⟩)),
        speed := some 66, status := none } := by
  have hnext : highway40.waypoints.getD
      (min (0 + 1) (highway40.waypoints.length - 1)) ⟨0, 0, ""⟩ =
      ⟨24.5247, 46.1792, "Al-Kharj"⟩ := rfl
  have hsl : highway40.speedLimits.get? 0 = some 120 := rfl
  have htf : highway40.terrainFactors.get? 0 = some (1.0 : ℝ) := rfl
  have hcs : snapTruck.speed = 60 := rfl
  have hz : calculateDistance snapTruck.currentPosition
      (NamedWaypoint.pos ⟨24.5247, 46.1792, "Al-Kharj"⟩) = 0 :=
    calculateDistance_self_coords rfl rfl
  simp only [highwayMovement]
  rw [hnext, hsl, htf, hcs]
  simp only [jsOrNum]
  rw [if_neg (by norm_num : ¬(120 : ℝ) = 0),
    if_neg (by norm_num : ¬(1.0 : ℝ) = 0)]
  rw [show (60 : ℝ) + (120 * 1.0 * (0.8 + 1 / 2 * 0.4) - 60) * 0.1 = 66
      by norm_num]
  rw [min_eq_right (by norm_num : (66 : ℝ) ≤ 120),
    max_eq_right (by norm_num : (30 : ℝ) ≤ 66)]
  rw [hz]
  rw [if_pos (by norm_num : (0 : ℝ) < 66 / 60 * 2)]

/-- C2 witness: the snap conclusion discharged at the snap configuration
(coverable 2.2 km at least the remaining 0 km) and the interpolation
conclusion discharged at the counterexample configuration (coverable
2.2 km strictly below the remaining distance). -/
theorem highwayMovement_snap_and_interpolate_witness :
    (({ lat := 24.5247, lng := 46.1792, timestamp := some "t3" } :
        Position).lat =
      (highway40.waypoints.getD (min (0 + 1)
        (highway40.waypoints.length - 1)) ⟨0, 0, ""⟩).lat ∧
      ({ lat := 24.5247, lng := 46.1792, timestamp := some "t3" } :
        Position).lng =
      (highway40.waypoints.getD (min (0 + 1)
        (highway40.waypoints.length - 1)) ⟨0, 0, ""⟩).lng ∧
      calculateDistance
        { lat := 24.5247, lng := 46.1792, timestamp := some "t3" }
        (highway40.waypoints.getD (min (0 + 1)
          (highway40.waypoints.length - 1)) ⟨0, 0, ""⟩).pos = 0) ∧
    flatDist
        { lat := 22.75 + (22.7500 - 22.75) *
            (66 / 60 * 2 / calculateDistance pStar bishahPos),
          lng := -170 + (43.1667 - -170) *
            (66 / 60 * 2 / calculateDistance pStar bishahPos),
          timestamp := some "t2" }
        (highway15.waypoints.getD (min (2 + 1)
          (highway15.waypoints.length - 1)) ⟨0, 0, ""⟩).pos <
      flatDist ceTruck.currentPosition
        (highway15.waypoints.getD (min (2 + 1)
          (highway15.waypoints.length - 1)) ⟨0, 0, ""⟩).pos := by
  constructor
  · refine (highwayMovement_snap_and_interpolate snapTruck (fun _ => 1 / 2)
      "t3" highway40
      { waypoint := ⟨24.7136, 46.6753, "Riyadh"⟩, index := 0, distance := 0 }
      66 { lat := 24.5247, lng := 46.1792, timestamp := some "t3" }
      ?_ ?_).1 ?_
    · rw [highwayMovement_snap_ce]
    · rw [highwayMovement_snap_ce]
    · show calculateDistance snapTruck.currentPosition
        (NamedWaypoint.pos ⟨24.5247, 46.1792, "Al-Kharj"⟩) ≤ (66 : ℝ) / 60 * 2
      rw [@calculateDistance_self_coords snapTruck.currentPosition
        (NamedWaypoint.pos ⟨24.5247, 46.1792, "Al-Kharj"⟩) rfl rfl]
      norm_num
  · refine (highwayMovement_snap_and_interpolate ceTruck (fun _ => 1 / 2)
      "t2" highway15
      { waypoint := ⟨24.7136, 46.6753, "Riyadh"⟩, index := 2,
        distance := calculateDistance pStar riyadhPos }
      66
      { lat := 22.75 + (22.7500 - 22.75) *
          (66 / 60 * 2 / calculateDistance pStar bishahPos),
        lng := -170 + (43.1667 - -170) *
          (66 / 60 * 2 / calculateDistance pStar bishahPos),
        timestamp := some "t2" }
      ?_ ?_).2 ?_
    · rw [highwayMovement_ce]
    · rw [highwayMovement_ce]
    · show (66 : ℝ) / 60 * 2 < calculateDistance pStar bishahPos
      have := dist_pStar_bishah_big
      have h22 : (66 : ℝ) / 60 * 2 = 2.2 := by norm_num
      rw [h22]
      linarith

end TruckTracker
